import Mathlib

/-!
LoRaWAN application task and CLI: a shallow embedding.

Definitions follow `src/application_task.c` and
`src/comms/lorawan/lorawan_task_cli.c`.  C `char` / `uint8_t` values are
natural numbers, memory reached through a pointer is a function from the
offset to the byte stored there, and calls into collaborators (the LoRaWAN
stack, the LED sequencer, the GPIO layer, the console) are recorded in
order in a call log.
-/

namespace Lorawan

/-! ## `lorawan_task_cli.c`: the hex-escape decoder -/

/-- Memory reached through a pointer: the byte at each offset. -/
abbrev Mem := Nat → Nat

/-- Assignment `m[k] = v`. -/
def store (m : Mem) (k v : Nat) : Mem := fun i => if i = k then v else m i

/-- The C library `isspace` in the "C" locale: space, and `\t \n \v \f \r`. -/
def isspace (c : Nat) : Bool := c == 32 || (9 ≤ c && c ≤ 13)

/-- Value of a hexadecimal digit character of either case, as `strtol` with
base 16 reads it. -/
def hexval (c : Nat) : Option Nat :=
  if 48 ≤ c ∧ c ≤ 57 then some (c - 48)
  else if 97 ≤ c ∧ c ≤ 102 then some (c - 87)
  else if 65 ≤ c ∧ c ≤ 70 then some (c - 55)
  else none

/-- The digit loop of `strtol(_, NULL, 16)`: consumes hex digits while there
are any, accumulating the value. -/
def strtol_digits16 : List Nat → Nat → Nat
  | [], acc => acc
  | c :: cs, acc =>
    match hexval c with
    | some d => strtol_digits16 cs (16 * acc + d)
    | none => acc

/-- The sign step of `strtol`: an optional `-` or `+`. -/
def strtol_sign : List Nat → Bool × List Nat
  | [] => (false, [])
  | c :: r => if c = 45 then (true, r) else if c = 43 then (false, r) else (false, c :: r)

/-- The prefix step of `strtol` with base 16: an optional `0x` / `0X`, taken
only when a hex digit follows it. -/
def strtol_prefix16 : List Nat → List Nat
  | z :: x :: d :: r =>
    if z = 48 ∧ (x = 120 ∨ x = 88) ∧ (hexval d).isSome then d :: r else z :: x :: d :: r
  | s => s

/-- The C library `strtol(s, NULL, 16)` on the characters of `s` that precede
its terminator: white space, sign, prefix, digits.  (The clamp to `LONG_MAX`
is not modelled: the decoder passes at most two characters.) -/
def strtol16 (s : List Nat) : Int :=
  let r := strtol_sign (s.dropWhile isspace)
  let v : Int := (strtol_digits16 (strtol_prefix16 r.2) 0 : Nat)
  if r.1 then -v else v

/-- The characters of a C string held in an array: those before the first
NUL. -/
def cstring (a : List Nat) : List Nat := a.takeWhile (fun c => c != 0)

/-- Conversion of a `long` to `uint8_t`. -/
def to_uint8 (v : Int) : Nat := (v % 256).toNat

/-- The locals `n`, `*outlen` and the target `out` of `convert_hex_string`.
`size_t` arithmetic is not wrapped: a string in a 32-bit address space is
shorter than `2^32 - 4`. -/
structure HexState where
  n : Nat
  out : Mem
  outlen : Nat

/-- One iteration of the `while (n < inlen)` body of `convert_hex_string`. -/
def convert_hex_string_step (inp : Mem) (st : HexState) : HexState :=
  if inp st.n = 92 then
    -- case '\\': n++
    let n1 := st.n + 1
    if inp n1 = 120 then
      -- case 'x': n++; memset; memcpy(cNum, &in[n], 2); n++; out[*outlen] = strtol(..)
      let n2 := n1 + 1
      let cNum := [inp n2, inp (n2 + 1), 0]
      let n3 := n2 + 1
      { n := n3 + 1
        out := store st.out st.outlen (to_uint8 (strtol16 (cstring cNum)))
        outlen := st.outlen + 1 }
    else
      -- no other escape is handled: nothing is stored
      { n := n1 + 1, out := st.out, outlen := st.outlen + 1 }
  else
    -- default: out[*outlen] = in[n]
    { n := st.n + 1, out := store st.out st.outlen (inp st.n % 256), outlen := st.outlen + 1 }

/-- The `while (n < inlen)` loop of `convert_hex_string`; `fuel` bounds the
number of iterations. -/
def convert_hex_string_loop (inp : Mem) (inlen : Nat) : Nat → HexState → HexState
  | 0, st => st
  | fuel + 1, st =>
    if st.n < inlen then
      convert_hex_string_loop inp inlen fuel (convert_hex_string_step inp st)
    else st

/-- Function `convert_hex_string(in, inlen, out, outlen)`: the resulting `out` memory
and `*outlen`.  Every iteration advances `n`, so `inlen` iterations are
enough (`convert_hex_string_loop_exits`). -/
def convert_hex_string (inp : Mem) (inlen : Nat) (out : Mem) : Mem × Nat :=
  let st := convert_hex_string_loop inp inlen inlen { n := 0, out := out, outlen := 0 }
  (st.out, st.outlen)

/-- The string `s` writes the byte sequence `bs`: each byte either literally,
as a character other than backslash, or as the escape `\xHH` with two hex
digits. -/
inductive Writes : List Nat → List Nat → Prop
  | nil : Writes [] []
  | lit (c : Nat) (s bs : List Nat) : c ≠ 92 → c < 256 → Writes s bs →
      Writes (c :: s) (c :: bs)
  | esc (h1 h2 d1 d2 : Nat) (s bs : List Nat) : hexval h1 = some d1 → hexval h2 = some d2 →
      Writes s bs → Writes (92 :: 120 :: h1 :: h2 :: s) ((16 * d1 + d2) :: bs)

/-- Successive stores of `bs` from offset `k`. -/
def store_list (m : Mem) (k : Nat) : List Nat → Mem
  | [] => m
  | b :: bs => store_list (store m k b) (k + 1) bs

/-- The memory holding the string `s` from offset 0, NUL after it. -/
def string_mem (s : List Nat) : Mem := fun i => s.getD i 0

/-! ## `application_task.c`: types and globals -/

/-- Conversion to `uint32_t`. -/
def u32 (x : Nat) : Nat := x % 2 ^ 32

/-- Conversion to `int32_t` (two's complement). -/
def i32 (x : Int) : Int := (x + 2 ^ 31) % 2 ^ 32 - 2 ^ 31

/-- The C library `memcpy(dst, src, n)`: the first `n` bytes of `dst` become those of `src`. -/
def memcpy (dst src : Mem) (n : Nat) : Mem := fun i => if i < n then src i else dst i

/-- Macro `#define APPLICATION_QUEUE_MAX_SIZE (10)`. -/
def APPLICATION_QUEUE_MAX_SIZE : Nat := 10

/-- Macro `#define APPLICATION_RX_BUFFER_MAX_SIZE (256)`. -/
def APPLICATION_RX_BUFFER_MAX_SIZE : Nat := 256

/-- First enumerator of `application_message_t`. -/
def APP_MSG_RX : Nat := 0

/-- Second enumerator of `application_message_t`. -/
def APP_MSG_BUTTON_PRESSED : Nat := 1

/-- Type `lorawan_class_e` of `lorawan.h`. -/
inductive lorawan_class_e
  | LORAWAN_CLASS_A
  | LORAWAN_CLASS_B
  | LORAWAN_CLASS_C
  deriving DecidableEq, Repr

/-- Macro `#define APPLICATION_DEFAULT_LORAWAN_CLASS LORAWAN_CLASS_A`. -/
def APPLICATION_DEFAULT_LORAWAN_CLASS : lorawan_class_e := lorawan_class_e.LORAWAN_CLASS_A

/-- The effect identifiers of `led.h` that this file sends. -/
inductive led_effect_e
  | LED_EFFECT_PULSE1
  | LED_EFFECT_PULSE2
  | LED_EFFECT_BREATHING
  deriving DecidableEq, Repr

/-- Type `led_command_t` of `led.h`. -/
structure led_command_t where
  ui32Handle : Nat
  ui32Id : led_effect_e
  ui32Repeat : Nat
  deriving DecidableEq, Repr

/-- Result of `led_status_get`: the value the loop tests for, or any other
status, by its code. -/
inductive led_status_e
  | LED_STATUS_IDLE
  | other (code : Nat)
  deriving DecidableEq, Repr

/-- Type `LmHandlerErrorStatus_t` of the stack: the value the join handler tests
for, or any other status, by its code. -/
inductive LmHandlerErrorStatus_t
  | LORAMAC_HANDLER_ERROR
  | other (code : Int)
  deriving DecidableEq, Repr

/-- Type `LoRaMacStatus_t` of the stack: the value the MLME handler tests for, or
any other status, by its code. -/
inductive LoRaMacStatus_t
  | LORAMAC_STATUS_DUTYCYCLE_RESTRICTED
  | other (code : Nat)
  deriving DecidableEq, Repr

/-- Type `Mlme_t` of the stack: the request type the MLME handler tests for, or any
other type, by its code. -/
inductive Mlme_t
  | MLME_JOIN
  | other (code : Nat)
  deriving DecidableEq, Repr

/-- The GPIO pins this file writes. -/
inductive gpio_pin
  | AM_BSP_GPIO_LED0
  | AM_BSP_GPIO_LED1
  | AM_BSP_GPIO_LED2
  | AM_BSP_GPIO_LED3
  | AM_BSP_GPIO_LED4
  | AM_BSP_GPIO_PETAL_CORE_nLORA_EN
  | AM_BSP_GPIO_PETAL_DEV_IO_EN
  deriving DecidableEq, Repr

/-- Type `am_hal_gpio_write_type_e`: the second argument of
`am_hal_gpio_state_write`. -/
inductive am_hal_gpio_write_type_e
  | AM_HAL_GPIO_OUTPUT_CLEAR
  | AM_HAL_GPIO_OUTPUT_SET
  | AM_HAL_GPIO_OUTPUT_TOGGLE
  deriving DecidableEq, Repr

/-- Constant `LORAMAC_HANDLER_UNCONFIRMED_MSG`: the `ack` argument 0 of
`lorawan_transmit` ("0 for no acknowledgment"). -/
def LORAMAC_HANDLER_UNCONFIRMED_MSG : Nat := 0

/-- The region of `lorawan.h` that `setup_lorawan` configures. -/
inductive lorawan_region_e
  | LORAWAN_REGION_US915
  deriving DecidableEq, Repr

/-- The data rate of `lorawan.h` that `setup_lorawan` configures. -/
inductive lorawan_datarate_e
  | LORAWAN_DATARATE_0
  deriving DecidableEq, Repr

/-- The activation mode of `lorawan.h` that `setup_lorawan` configures. -/
inductive lorawan_activation_e
  | LORAWAN_ACTIVATION_OTAA
  deriving DecidableEq, Repr

/-- The key identifiers of `lorawan.h` that the two files name. -/
inductive lorawan_key_e
  | LORAWAN_KEY_DEV_EUI
  | LORAWAN_KEY_JOIN_EUI
  | LORAWAN_KEY_APP
  | LORAWAN_KEY_NWK
  deriving DecidableEq, Repr

/-- The stack events of `lorawan.h` for which `setup_lorawan` registers a
callback. -/
inductive lorawan_event_e
  | LORAWAN_EVENT_MAC_MLME_REQUEST
  | LORAWAN_EVENT_JOIN_REQUEST
  | LORAWAN_EVENT_RX_DATA
  | LORAWAN_EVENT_SLEEP
  | LORAWAN_EVENT_WAKE
  deriving DecidableEq, Repr

/-- The callbacks of `application_task.c` that `setup_lorawan` registers, by
name. -/
inductive app_callback
  | on_lorawan_mlme_request
  | on_lorawan_join_request
  | on_lorawan_receive
  | on_lorawan_sleep
  | on_lorawan_wake
  deriving DecidableEq, Repr

/-- The stack state of `lorawan.h` that `setup_lorawan` sets. -/
inductive lorawan_stack_state_e
  | LORAWAN_STACK_STARTED
  deriving DecidableEq, Repr

/-- The `eCommand` values of `lorawan_command_t` that the CLI sends. -/
inductive lorawan_command_e
  | LORAWAN_START
  | LORAWAN_STOP
  | LORAWAN_SYNC_MAC
  | LORAWAN_SYNC_APP
  deriving DecidableEq, Repr

/-- A call from the two files into a collaborator, with its arguments;
queries, whose results are inputs of the model, are not logged.  The second
argument of `lorawan_activation_config` is the pointer it is given,
`none` for `NULL`; a timer is named by its handle. -/
inductive Call
  | lorawan_join
  | lorawan_class_set (cls : lorawan_class_e)
  | lorawan_request_time_sync
  | led_send (command : led_command_t)
  | am_hal_gpio_state_write (pin : gpio_pin) (state : am_hal_gpio_write_type_e)
  | am_util_stdio_printf (fmt : String) (args : List Int)
  | lorawan_transmit (port ack length : Nat) (payload : List Nat)
  | lorawan_tracing_set (enable : Nat)
  | lorawan_network_config (region : lorawan_region_e) (datarate : lorawan_datarate_e)
      (flag1 flag2 : Bool)
  | lorawan_activation_config (activation : lorawan_activation_e) (parameters : Option Nat)
  | lorawan_key_set_by_str (key : lorawan_key_e) (value : String)
  | lorawan_event_callback_register (event : lorawan_event_e) (callback : app_callback)
  | lorawan_stack_state_set (state : lorawan_stack_state_e)
  | lorawan_send_command (command : lorawan_command_e)
  | eeprom_format
  | BoardInitMcu
  | BoardDeInitMcu
  | xTimerCreate (name : String) (period : Nat) (auto_reload : Bool) (id : Nat)
  | xTimerStart (timer : Nat)
  | xTimerStop (timer : Nat)
  | xTimerDelete (timer : Nat)
  | xTimerChangePeriod (timer : Nat) (period : Nat)
  deriving DecidableEq, Repr

/-- Target of `application_rx_packet.payload`: null until the first accepted
downlink, `application_rx_buffer` afterwards. -/
inductive rx_payload_ptr
  | NULL
  | application_rx_buffer
  deriving DecidableEq, Repr

/-- Type `application_rx_packet_t`. -/
structure application_rx_packet_t where
  counter : Nat
  port : Nat
  slot : Int
  dr : Int
  rssi : Int
  snr : Int
  size : Nat
  payload : rx_payload_ptr
  deriving DecidableEq, Repr

/-- The file-scope variables of `application_task.c`, the contents of the
queue behind `application_queue_handle`, and the log of calls made so far.
`application_rx_buffer` is the memory from the start of the array: offsets
below `APPLICATION_RX_BUFFER_MAX_SIZE` are the array, offsets from it on are
what lies behind the array. -/
structure AppState where
  application_rx_buffer : Mem
  application_rx_packet : application_rx_packet_t
  lorawan_joining : Nat
  application_queue : List Nat
  application_led_handle : Nat
  calls : List Call

/-- The state at start-up: statics are zero, the queue is empty. -/
def AppState.init (led_handle : Nat) : AppState :=
  { application_rx_buffer := fun _ => 0
    application_rx_packet :=
      { counter := 0, port := 0, slot := 0, dr := 0, rssi := 0, snr := 0, size := 0
        payload := rx_payload_ptr.NULL }
    lorawan_joining := 0
    application_queue := []
    application_led_handle := led_handle
    calls := [] }

/-- Records a call in the log. -/
def AppState.call (s : AppState) (c : Call) : AppState := { s with calls := s.calls ++ [c] }

/-- The field of `LmHandlerJoinParams_t` that the join handler reads. -/
structure LmHandlerJoinParams_t where
  Status : LmHandlerErrorStatus_t
  deriving DecidableEq, Repr

/-- Type `LmHandlerAppData_t` of the stack: `uint8_t Port`, `uint8_t
BufferSize`, `uint8_t *Buffer`.  The two proof fields carry the range of the
8-bit fields, so an event states a port and a length below 256. -/
structure LmHandlerAppData_t where
  Port : Nat
  BufferSize : Nat
  Buffer : Mem
  Port_lt : Port < 2 ^ 8 := by decide
  BufferSize_lt : BufferSize < 2 ^ 8 := by decide

/-- The fields of `LmHandlerRxParams_t` that the receive handler reads.  The
stack's header declares their widths; here they hold any value. -/
structure LmHandlerRxParams_t where
  DownlinkCounter : Nat
  RxSlot : Int
  Datarate : Int
  Rssi : Int
  Snr : Int
  deriving DecidableEq, Repr

/-- The field `Type` of `MlmeReq_t`, the one the MLME handler reads. -/
structure MlmeReq_t where
  Type_ : Mlme_t
  deriving DecidableEq, Repr

/-- FreeRTOS `xQueueSend` on the application queue, created with
`APPLICATION_QUEUE_MAX_SIZE` slots: the message is appended when a slot is
free; on a queue that stays full for the 100 ms wait, it is dropped. -/
def xQueueSend (q : List Nat) (msg : Nat) : List Nat :=
  if q.length < APPLICATION_QUEUE_MAX_SIZE then q ++ [msg] else q

/-- FreeRTOS `xQueueReceive` on the application queue: the oldest message
(`pdPASS`), or none when the 1 s wait times out on an empty queue. -/
def xQueueReceive (q : List Nat) : Option Nat × List Nat :=
  match q with
  | [] => (none, [])
  | msg :: rest => (some msg, rest)

/-! ## `application_task.c`: the stack callbacks -/

/-- Callback `on_lorawan_join_request(params)`. -/
def on_lorawan_join_request (s : AppState) (params : LmHandlerJoinParams_t) : AppState :=
  let s := { s with lorawan_joining := 0 }
  if params.Status = LmHandlerErrorStatus_t.LORAMAC_HANDLER_ERROR then
    s.call Call.lorawan_join
  else
    let s := s.call (Call.lorawan_class_set APPLICATION_DEFAULT_LORAWAN_CLASS)
    let s := s.call Call.lorawan_request_time_sync
    s.call (Call.led_send
      { ui32Handle := s.application_led_handle
        ui32Id := led_effect_e.LED_EFFECT_PULSE2
        ui32Repeat := 1 })

/-- Callback `on_lorawan_receive(data, params)`; `data = none` is the null pointer. -/
def on_lorawan_receive (s : AppState) (data : Option LmHandlerAppData_t)
    (params : LmHandlerRxParams_t) : AppState :=
  match data with
  | none => s
  | some data =>
    if data.Port = 0 then s
    else
      { s with
        application_rx_packet :=
          { counter := u32 params.DownlinkCounter
            port := u32 data.Port
            slot := i32 params.RxSlot
            dr := i32 params.Datarate
            rssi := i32 params.Rssi
            snr := i32 params.Snr
            size := u32 data.BufferSize
            payload := rx_payload_ptr.application_rx_buffer }
        application_rx_buffer := memcpy s.application_rx_buffer data.Buffer (u32 data.BufferSize)
        application_queue := xQueueSend s.application_queue APP_MSG_RX }

/-- Callback `on_lorawan_mlme_request(status, mlme, delay)`. -/
def on_lorawan_mlme_request (s : AppState) (status : LoRaMacStatus_t) (mlme : MlmeReq_t)
    (_delay : Nat) : AppState :=
  if mlme.Type_ = Mlme_t.MLME_JOIN then
    if status = LoRaMacStatus_t.LORAMAC_STATUS_DUTYCYCLE_RESTRICTED then
      let s := s.call (Call.led_send
        { ui32Handle := s.application_led_handle
          ui32Id := led_effect_e.LED_EFFECT_PULSE1
          ui32Repeat := 1 })
      { s with lorawan_joining := 0 }
    else
      let s := s.call (Call.led_send
        { ui32Handle := s.application_led_handle
          ui32Id := led_effect_e.LED_EFFECT_BREATHING
          ui32Repeat := 0 })
      { s with lorawan_joining := 1 }
  else s

/-- Callback `on_lorawan_sleep()`; `bsp_nm18041x` is the preprocessor condition
`defined(BSP_NM180410) || defined(BSP_NM180411)`. -/
def on_lorawan_sleep (bsp_nm18041x : Bool) (s : AppState) : AppState :=
  if bsp_nm18041x then
    if s.lorawan_joining = 0 then
      s.call (Call.am_hal_gpio_state_write gpio_pin.AM_BSP_GPIO_PETAL_CORE_nLORA_EN
        am_hal_gpio_write_type_e.AM_HAL_GPIO_OUTPUT_SET)
    else s
  else s

/-- Callback `on_lorawan_wake()`, with the same preprocessor condition. -/
def on_lorawan_wake (bsp_nm18041x : Bool) (s : AppState) : AppState :=
  if bsp_nm18041x then
    s.call (Call.am_hal_gpio_state_write gpio_pin.AM_BSP_GPIO_PETAL_CORE_nLORA_EN
      am_hal_gpio_write_type_e.AM_HAL_GPIO_OUTPUT_CLEAR)
  else s

/-! ## `application_task.c`: the dispatch loop -/

/-- The byte `application_rx_packet.payload[i]`.  The pointer is null only
before the first accepted downlink, when `size` is 0 and no byte is read;
the read through null is given the value 0. -/
def rx_payload_byte (s : AppState) (i : Nat) : Nat :=
  match s.application_rx_packet.payload with
  | rx_payload_ptr.application_rx_buffer => s.application_rx_buffer i
  | rx_payload_ptr.NULL => 0

/-- The body of the `for` loop of `process_downlink_packet` at index `i`. -/
def print_payload_byte (s : AppState) (i : Nat) : List Call :=
  (if i % 8 = 0 then [Call.am_util_stdio_printf "\n\r    " []] else []) ++
    [Call.am_util_stdio_printf "%02x " [(rx_payload_byte s i : Nat)]]

/-- The console output of `process_downlink_packet`, one entry per
`am_util_stdio_printf` call, each with its format and its arguments.  The
`for` loop runs its `int` index from 0 up to the `uint32_t` size. -/
def downlink_report (s : AppState) : List Call :=
  [ Call.am_util_stdio_printf "\n\rReceived Data\n\r" [],
    Call.am_util_stdio_printf "  COUNTER   : %-4d\n\r" [(s.application_rx_packet.counter : Nat)],
    Call.am_util_stdio_printf "  PORT      : %-4d\n\r" [(s.application_rx_packet.port : Nat)],
    Call.am_util_stdio_printf "  SLOT      : %-4d\n\r" [s.application_rx_packet.slot],
    Call.am_util_stdio_printf "  DATA RATE : %-4d\n\r" [s.application_rx_packet.dr],
    Call.am_util_stdio_printf "  RSSI      : %-4d\n\r" [s.application_rx_packet.rssi],
    Call.am_util_stdio_printf "  SNR       : %-4d\n\r" [s.application_rx_packet.snr],
    Call.am_util_stdio_printf "  SIZE      : %-4d\n\r" [(s.application_rx_packet.size : Nat)],
    Call.am_util_stdio_printf "  PAYLOAD   :" [] ] ++
  (List.range s.application_rx_packet.size).flatMap (print_payload_byte s) ++
  [ Call.am_util_stdio_printf "\n\r" [] ]

/-- Function `process_downlink_packet()`: the report, then the LED command. -/
def process_downlink_packet (s : AppState) : AppState :=
  let s := { s with calls := s.calls ++ downlink_report s }
  s.call (Call.led_send
    { ui32Handle := s.application_led_handle
      ui32Id := led_effect_e.LED_EFFECT_PULSE2
      ui32Repeat := 1 })

/-- Function `process_button_press()`: `lorawan_transmit(1, 0, 1, "B")`. -/
def process_button_press (s : AppState) : AppState :=
  s.call (Call.lorawan_transmit 1 0 1 [66])

/-- Callback `on_button_pressed()`. -/
def on_button_pressed (s : AppState) : AppState :=
  { s with application_queue := xQueueSend s.application_queue APP_MSG_BUTTON_PRESSED }

/-- Function `application_task_loop()`: one iteration.  `led_status` is what
`led_status_get(application_led_handle)` returns when the loop polls it, after
the message, if any, has been handled. -/
def application_task_loop (s : AppState) (led_status : led_status_e) : AppState :=
  let r := xQueueReceive s.application_queue
  let s := { s with application_queue := r.2 }
  let s :=
    match r.1 with
    | some msg =>
      if msg = APP_MSG_RX then process_downlink_packet s
      else if msg = APP_MSG_BUTTON_PRESSED then process_button_press s
      else s
    | none => s
  if led_status = led_status_e.LED_STATUS_IDLE then
    s.call (Call.am_hal_gpio_state_write gpio_pin.AM_BSP_GPIO_LED1
      am_hal_gpio_write_type_e.AM_HAL_GPIO_OUTPUT_TOGGLE)
  else s

/-! ## `application_task.c`: start-up -/

/-- Macro `#define LORAWAN_PM_ENABLE 1`. -/
def LORAWAN_PM_ENABLE : Nat := 1

/-- Function `setup_lorawan()`.  `join_state` is what `lorawan_get_join_state()`
returns: the join flag kept in flash. -/
def setup_lorawan (s : AppState) (join_state : Bool) : AppState :=
  let s := { s with lorawan_joining := 0 }
  let s := s.call (Call.lorawan_tracing_set 1)
  let s := s.call (Call.lorawan_network_config lorawan_region_e.LORAWAN_REGION_US915
    lorawan_datarate_e.LORAWAN_DATARATE_0 true true)
  let s := s.call (Call.lorawan_activation_config lorawan_activation_e.LORAWAN_ACTIVATION_OTAA none)
  let s := s.call (Call.lorawan_key_set_by_str lorawan_key_e.LORAWAN_KEY_JOIN_EUI
    "b4c231a359bc2e3d")
  let s := s.call (Call.lorawan_key_set_by_str lorawan_key_e.LORAWAN_KEY_APP
    "01c3f004a2d6efffe32c4eda14bcd2b4")
  let s := s.call (Call.lorawan_key_set_by_str lorawan_key_e.LORAWAN_KEY_NWK
    "3f4ca100e2fc675ea123f4eb12c4a012")
  let s := s.call (Call.lorawan_event_callback_register
    lorawan_event_e.LORAWAN_EVENT_MAC_MLME_REQUEST app_callback.on_lorawan_mlme_request)
  let s := s.call (Call.lorawan_event_callback_register
    lorawan_event_e.LORAWAN_EVENT_JOIN_REQUEST app_callback.on_lorawan_join_request)
  let s := s.call (Call.lorawan_event_callback_register
    lorawan_event_e.LORAWAN_EVENT_RX_DATA app_callback.on_lorawan_receive)
  let s :=
    if LORAWAN_PM_ENABLE = 1 then
      let s := s.call (Call.lorawan_event_callback_register
        lorawan_event_e.LORAWAN_EVENT_SLEEP app_callback.on_lorawan_sleep)
      s.call (Call.lorawan_event_callback_register
        lorawan_event_e.LORAWAN_EVENT_WAKE app_callback.on_lorawan_wake)
    else s
  let s := s.call (Call.lorawan_stack_state_set lorawan_stack_state_e.LORAWAN_STACK_STARTED)
  if join_state then s.call (Call.lorawan_class_set APPLICATION_DEFAULT_LORAWAN_CLASS) else s

/-! ## `lorawan_task_cli.c`: types and globals -/

/-- Constant `LORAMAC_HANDLER_CONFIRMED_MSG` of the stack, the negation of the
unconfirmed value. -/
def LORAMAC_HANDLER_CONFIRMED_MSG : Nat := 1

/-- The characters of a string literal, as `char` values. -/
def lit (s : String) : List Nat := s.toList.map Char.toNat

/-- Conversion of a `long` to `uint32_t`. -/
def to_u32 (v : Int) : Nat := (v % 2 ^ 32).toNat

/-- Value of a decimal digit character. -/
def decval (c : Nat) : Option Nat := if 48 ≤ c ∧ c ≤ 57 then some (c - 48) else none

/-- The digit loop of `strtol(_, NULL, 10)`. -/
def strtol_digits10 : List Nat → Nat → Nat
  | [], acc => acc
  | c :: cs, acc =>
    match decval c with
    | some d => strtol_digits10 cs (10 * acc + d)
    | none => acc

/-- The C library `strtol(s, NULL, 10)` with a 32-bit `long`: white space,
sign, digits, and the clamp to `LONG_MIN` / `LONG_MAX`. -/
def strtol10 (s : List Nat) : Int :=
  let r := strtol_sign (s.dropWhile isspace)
  let v : Int := (strtol_digits10 r.2 0 : Nat)
  let v := if r.1 then -v else v
  if v < -(2 ^ 31) then -(2 ^ 31) else if 2 ^ 31 - 1 < v then 2 ^ 31 - 1 else v

/-- The decimal digits of `n`, most significant first; `fuel` bounds their
number. -/
def decimal_digits : Nat → Nat → List Nat → List Nat
  | 0, _, acc => acc
  | fuel + 1, n, acc =>
    if n / 10 = 0 then (48 + n % 10) :: acc
    else decimal_digits fuel (n / 10) ((48 + n % 10) :: acc)

/-- The characters `sprintf(_, "%d", v)` produces. -/
def sprintf_d (v : Int) : List Nat :=
  (if v < 0 then [45] else []) ++ decimal_digits (v.natAbs + 1) v.natAbs []

/-- FreeRTOS `pdMS_TO_TICKS(ms)` with a 32-bit `TickType_t`:
`(ms * configTICK_RATE_HZ) / 1000`. -/
def pdMS_TO_TICKS (configTICK_RATE_HZ ms : Nat) : Nat :=
  u32 (u32 ms * u32 configTICK_RATE_HZ) / 1000

/-- A software timer of the FreeRTOS timer service. -/
structure Timer where
  handle : Nat
  period : Nat
  auto_reload : Bool
  id : Nat
  active : Bool
  deriving DecidableEq, Repr

/-- Broken-down time, the fields of `struct tm` that the CLI prints. -/
structure tm where
  tm_mon : Int
  tm_mday : Int
  tm_year : Int
  tm_hour : Int
  tm_min : Int
  tm_sec : Int
  deriving DecidableEq, Repr

/-- What the CLI reads from its collaborators and from headers that are not
part of the two files: the tick rate of `FreeRTOSConfig.h`, the key sizes of
the secure element, and the results of the queries `lorawan_class_get`,
`SysTimeGet`, `SysTimeLocalTime`, `lorawan_key_get` and of the two multicast
session queries. -/
structure CliEnv where
  configTICK_RATE_HZ : Nat
  SE_EUI_SIZE : Nat
  SE_KEY_SIZE : Nat
  cls : lorawan_class_e
  timestamp_seconds : Nat
  localtime : tm
  dev_eui : Mem
  join_eui : Mem
  app_key : Mem
  nwk_key : Mem
  mcast_started : Bool
  mcast_remaining : Nat

/-- The file-scope variables of `lorawan_task_cli.c`, the timers that exist in
the timer service, the handle the next `xTimerCreate` returns, and the log of
calls made so far.  `periodic_transmit_timer = none` is the null handle.
`lorawan_cli_transmit_buffer` is the memory from the start of the array:
offsets below `LM_BUFFER_SIZE` are the array. -/
structure CliState where
  lorawan_cli_transmit_buffer : Mem
  lorawan_default_port : Nat
  periodic_transmit_timer : Option Nat
  timers : List Timer
  next_timer : Nat
  calls : List Call

/-- The state at start-up: no timer, default port 1. -/
def CliState.init : CliState :=
  { lorawan_cli_transmit_buffer := fun _ => 0
    lorawan_default_port := 1
    periodic_transmit_timer := none
    timers := []
    next_timer := 1
    calls := [] }

/-- Records a call in the log. -/
def CliState.call (s : CliState) (c : Call) : CliState := { s with calls := s.calls ++ [c] }

/-- Records a console print without arguments. -/
def CliState.print (s : CliState) (text : String) : CliState :=
  s.call (Call.am_util_stdio_printf text [])

/-- A read of an `argv` slot that the tokenizer did not fill: the slot holds
null or what an earlier command line left there. -/
inductive Fault
  | absent_argument (index : Nat)
  deriving DecidableEq, Repr

/-- The read `argv[i]`, for the `argc = argv.length` arguments of the
tokenized command line; an argument is the list of its characters, without
the terminator. -/
def argv_read (argv : List (List Nat)) (i : Nat) : Except Fault (List Nat) :=
  match argv[i]? with
  | some a => Except.ok a
  | none => Except.error (Fault.absent_argument i)

/-! ## `lorawan_task_cli.c`: the timer service -/

/-- FreeRTOS `xTimerCreate`, taken to succeed: a dormant timer with a fresh
handle. -/
def xTimerCreate (s : CliState) (name : String) (period : Nat) (auto_reload : Bool) (id : Nat) :
    CliState × Nat :=
  ({ s with
      timers := s.timers ++
        [{ handle := s.next_timer, period := period, auto_reload := auto_reload, id := id
           active := false }]
      next_timer := s.next_timer + 1
      calls := s.calls ++ [Call.xTimerCreate name period auto_reload id] }, s.next_timer)

/-- Applies `f` to the timer with handle `h`. -/
def update_timer (timers : List Timer) (h : Nat) (f : Timer → Timer) : List Timer :=
  timers.map (fun t => if t.handle = h then f t else t)

/-- FreeRTOS `xTimerStart`. -/
def xTimerStart (s : CliState) (h : Nat) : CliState :=
  { s with
    timers := update_timer s.timers h (fun t => { t with active := true })
    calls := s.calls ++ [Call.xTimerStart h] }

/-- FreeRTOS `xTimerStop`. -/
def xTimerStop (s : CliState) (h : Nat) : CliState :=
  { s with
    timers := update_timer s.timers h (fun t => { t with active := false })
    calls := s.calls ++ [Call.xTimerStop h] }

/-- FreeRTOS `xTimerDelete`. -/
def xTimerDelete (s : CliState) (h : Nat) : CliState :=
  { s with
    timers := s.timers.filter (fun t => t.handle != h)
    calls := s.calls ++ [Call.xTimerDelete h] }

/-- FreeRTOS `xTimerChangePeriod`: sets the period and starts the timer. -/
def xTimerChangePeriod (s : CliState) (h : Nat) (period : Nat) : CliState :=
  { s with
    timers := update_timer s.timers h (fun t => { t with period := period, active := true })
    calls := s.calls ++ [Call.xTimerChangePeriod h period] }

/-- FreeRTOS `pvTimerGetTimerID`. -/
def pvTimerGetTimerID (s : CliState) (h : Nat) : Nat :=
  match s.timers.find? (fun t => t.handle == h) with
  | some t => t.id
  | none => 0

/-- FreeRTOS `vTimerSetTimerID`. -/
def vTimerSetTimerID (s : CliState) (h : Nat) (id : Nat) : CliState :=
  { s with timers := update_timer s.timers h (fun t => { t with id := id }) }

/-! ## `lorawan_task_cli.c`: the command handlers -/

/-- Function `print_hex_array(_, array, length, space)`: one entry per
`am_util_stdio_printf` call. -/
def print_hex_array (array : Mem) (length : Nat) (space : Bool) : List Call :=
  (List.range length).flatMap (fun i =>
    (if i % 16 = 0 ∧ 0 < i then [Call.am_util_stdio_printf "\n\r  " []] else []) ++
    [Call.am_util_stdio_printf "%02X" [(array i : Nat)]] ++
    (if space then [Call.am_util_stdio_printf " " []] else []))

/-- Function `periodic_transmit_callback(handle)`: counts in the timer ID,
prints the count into the transmit buffer and transmits it. -/
def periodic_transmit_callback (s : CliState) (handle : Nat) : CliState :=
  let ui32Count := u32 (u32 (pvTimerGetTimerID s handle) + 1)
  let s := vTimerSetTimerID s handle ui32Count
  let text := sprintf_d (i32 ui32Count)
  let s := { s with
    lorawan_cli_transmit_buffer := store_list s.lorawan_cli_transmit_buffer 0 (text ++ [0]) }
  let length := text.length
  s.call (Call.lorawan_transmit s.lorawan_default_port LORAMAC_HANDLER_UNCONFIRMED_MSG length
    ((List.range length).map s.lorawan_cli_transmit_buffer))

/-- Function `lorawan_task_cli_help`. -/
def lorawan_task_cli_help (s : CliState) : CliState :=
  let s := s.print "\r\nusage: lorawan <command>\r\n"
  let s := s.print "\r\n"
  let s := s.print "supported commands are:\r\n"
  let s := s.print "  start      start the LoRaWAN stack\r\n"
  let s := s.print "  stop       stop the LoRaWAN stack\r\n"
  let s := s.print "\r\n"
  let s := s.print "  class      <get|set> LoRaWAN class\r\n"
  let s := s.print "  clear      clear and reformat eeprom\r\n"
  let s := s.print "  datetime   <get|set|sync> network time\r\n"
  let s := s.print "  join       initiate a join\r\n"
  let s := s.print "  keys       display security keys\r\n"
  let s := s.print "  periodic   <start|stop> [period]\r\n"
  let s := s.print "             periodically transmit an incrementing counter\r\n"
  let s := s.print "  port       <start|stop> manual SPI port control\r\n"
  let s := s.print "  send       [port] [ack] <payload>\r\n"
  let s := s.print "             transmit a packet\r\n"
  let s := s.print "  status     display stack status\r\n"
  s.print "  trace      <enable|disable> debug messages\r\n"

/-- The `switch (cls)` of the `class get` and `status` commands: the letter of
the class. -/
def print_class (s : CliState) (cls : lorawan_class_e) : CliState :=
  match cls with
  | lorawan_class_e.LORAWAN_CLASS_A => s.print "A"
  | lorawan_class_e.LORAWAN_CLASS_B => s.print "B"
  | lorawan_class_e.LORAWAN_CLASS_C => s.print "C"

/-- Function `lorawan_task_cli_class`. -/
def lorawan_task_cli_class (env : CliEnv) (s : CliState) (argv : List (List Nat)) :
    Except Fault CliState :=
  let argc := argv.length
  if argc = 3 then do
    let a2 ← argv_read argv 2
    if a2 = lit "get" then
      let s := s.print "\n\rCurrent Class: "
      let s := print_class s env.cls
      pure (s.print "\n\r")
    else pure s
  else if argc = 4 then do
    let a2 ← argv_read argv 2
    if a2 = lit "set" then do
      let a3 ← argv_read argv 3
      let c := a3.getD 0 0
      if c = 97 ∨ c = 65 then
        pure (s.call (Call.lorawan_class_set lorawan_class_e.LORAWAN_CLASS_A))
      else if c = 98 ∨ c = 66 then
        pure (s.call (Call.lorawan_class_set lorawan_class_e.LORAWAN_CLASS_B))
      else if c = 99 ∨ c = 67 then
        pure (s.call (Call.lorawan_class_set lorawan_class_e.LORAWAN_CLASS_C))
      else pure (s.print "\n\rUnknown class requested.\n\r")
    else pure s
  else pure s

/-- Function `lorawan_task_cli_datetime`. -/
def lorawan_task_cli_datetime (env : CliEnv) (s : CliState) (argv : List (List Nat)) :
    Except Fault CliState :=
  let argc := argv.length
  if argc = 2 then
    pure (s.call (Call.am_util_stdio_printf
      "\n\rUnix timestamp: %d\n\rStack Time: %02d/%02d/%04d %02d:%02d:%02d (UTC0)\n\r"
      [ (env.timestamp_seconds : Nat), env.localtime.tm_mon + 1, env.localtime.tm_mday,
        env.localtime.tm_year + 1900, env.localtime.tm_hour, env.localtime.tm_min,
        env.localtime.tm_sec ]))
  else if 3 ≤ argc then do
    let a2 ← argv_read argv 2
    if a2 = lit "sync" then
      if argc = 3 then
        pure (s.call (Call.lorawan_send_command lorawan_command_e.LORAWAN_SYNC_MAC))
      else
        pure (s.call (Call.lorawan_send_command lorawan_command_e.LORAWAN_SYNC_APP))
    else pure s
  else pure s

/-- Function `lorawan_task_cli_port`. -/
def lorawan_task_cli_port (s : CliState) (argv : List (List Nat)) : Except Fault CliState :=
  let argc := argv.length
  if argc < 3 then pure s
  else do
    let a2 ← argv_read argv 2
    if a2 = lit "stop" then pure (s.call Call.BoardDeInitMcu)
    else if a2 = lit "start" then pure (s.call Call.BoardInitMcu)
    else pure s

/-- Function `lorawan_task_cli_trace`. -/
def lorawan_task_cli_trace (s : CliState) (argv : List (List Nat)) : Except Fault CliState :=
  let argc := argv.length
  if argc < 3 then pure s
  else do
    let a2 ← argv_read argv 2
    if a2 = lit "enable" then pure (s.call (Call.lorawan_tracing_set 1))
    else if a2 = lit "disable" then pure (s.call (Call.lorawan_tracing_set 0))
    else pure s

/-- Function `lorawan_task_cli_keys`. -/
def lorawan_task_cli_keys (env : CliEnv) (s : CliState) : CliState :=
  let s := s.print "\n\r"
  let s := s.print "Device EUI  : "
  let s := { s with calls := s.calls ++ print_hex_array env.dev_eui env.SE_EUI_SIZE false }
  let s := s.print "\n\r"
  let s := s.print "Join EUI    : "
  let s := { s with calls := s.calls ++ print_hex_array env.join_eui env.SE_EUI_SIZE false }
  let s := s.print "\n\r"
  let s := s.print "App Key     : "
  let s := { s with calls := s.calls ++ print_hex_array env.app_key env.SE_KEY_SIZE false }
  let s := s.print "\n\r"
  let s := s.print "Network Key : "
  let s := { s with calls := s.calls ++ print_hex_array env.nwk_key env.SE_KEY_SIZE false }
  let s := s.print "\n\r"
  s.print "\n\r"

/-- Function `lorawan_task_cli_periodic`. -/
def lorawan_task_cli_periodic (env : CliEnv) (s : CliState) (argv : List (List Nat)) :
    Except Fault CliState :=
  let argc := argv.length
  if argc < 3 then pure s
  else do
    let a2 ← argv_read argv 2
    if a2 = lit "stop" then
      match s.periodic_transmit_timer with
      | some h =>
        let s := xTimerStop s h
        let s := xTimerDelete s h
        pure { s with periodic_transmit_timer := none }
      | none => pure s
    else if a2 = lit "start" then do
      let ui32Period ←
        if argc = 3 then pure 300
        else do
          let a3 ← argv_read argv 3
          pure (to_u32 (strtol10 a3))
      match s.periodic_transmit_timer with
      | none =>
        let r := xTimerCreate s "lorawan periodic"
          (pdMS_TO_TICKS env.configTICK_RATE_HZ (u32 (ui32Period * 1000))) true 0
        let s := { r.1 with periodic_transmit_timer := some r.2 }
        let s := xTimerStart s r.2
        pure (periodic_transmit_callback s r.2)
      | some h =>
        let s := xTimerChangePeriod s h (pdMS_TO_TICKS env.configTICK_RATE_HZ ui32Period)
        pure (periodic_transmit_callback s h)
    else pure s

/-- Function `lorawan_task_cli_send`.  The payload argument lies in `argz`,
which is zero behind it; the index `argc - 1` is computed in `size_t`. -/
def lorawan_task_cli_send (s : CliState) (argv : List (List Nat)) : Except Fault CliState := do
  let argc := argv.length
  let port := s.lorawan_default_port
  let ack := LORAMAC_HANDLER_UNCONFIRMED_MSG
  let last ← argv_read argv ((argc + 2 ^ 32 - 1) % 2 ^ 32)
  let r := convert_hex_string (string_mem last) last.length s.lorawan_cli_transmit_buffer
  let length := r.2
  let s := { s with lorawan_cli_transmit_buffer := store r.1 length 0 }
  let pa : Nat × Nat ←
    if argc = 5 then do
      let a2 ← argv_read argv 2
      let a3 ← argv_read argv 3
      pure (to_u32 (strtol10 a2),
        if strtol10 a3 ≠ 0 then LORAMAC_HANDLER_CONFIRMED_MSG
        else LORAMAC_HANDLER_UNCONFIRMED_MSG)
    else if argc = 4 then do
      let a2 ← argv_read argv 2
      pure (to_u32 (strtol10 a2), ack)
    else pure (port, ack)
  pure (s.call (Call.lorawan_transmit pa.1 pa.2 length
    ((List.range length).map s.lorawan_cli_transmit_buffer)))

/-- Function `lorawan_task_cli_status`. -/
def lorawan_task_cli_status (env : CliEnv) (s : CliState) : CliState :=
  let s := s.print "\n\r"
  let s := s.print "Current Class: "
  let s := print_class s env.cls
  let s := s.print "\n\r"
  let s := s.print "Multicast Session: "
  if env.mcast_started = true then
    let s := s.print "in progress\n\r"
    let s := s.print "Remaining Time: "
    s.call (Call.am_util_stdio_printf "%u (ms) \n\r" [(env.mcast_remaining : Nat)])
  else s.print "none\n\r"

/-- Function `lorawan_task_cli_entry`, from the point where
`FreeRTOS_CLIExtractParameters` has split the command line into the
`argc = argv.length` arguments `argv`. -/
def lorawan_task_cli_entry (env : CliEnv) (s : CliState) (argv : List (List Nat)) :
    Except Fault CliState := do
  let a1 ← argv_read argv 1
  if a1 = lit "help" then pure (lorawan_task_cli_help s)
  else if a1 = lit "start" then
    pure (s.call (Call.lorawan_send_command lorawan_command_e.LORAWAN_START))
  else if a1 = lit "stop" then
    pure (s.call (Call.lorawan_send_command lorawan_command_e.LORAWAN_STOP))
  else if a1 = lit "class" then lorawan_task_cli_class env s argv
  else if a1 = lit "clear" then pure (s.call Call.eeprom_format)
  else if a1 = lit "datetime" then lorawan_task_cli_datetime env s argv
  else if a1 = lit "join" then pure (s.call Call.lorawan_join)
  else if a1 = lit "keys" then pure (lorawan_task_cli_keys env s)
  else if a1 = lit "periodic" then lorawan_task_cli_periodic env s argv
  else if a1 = lit "send" then lorawan_task_cli_send s argv
  else if a1 = lit "port" then lorawan_task_cli_port s argv
  else if a1 = lit "trace" then lorawan_task_cli_trace s argv
  else if a1 = lit "status" then pure (lorawan_task_cli_status env s)
  else pure (lorawan_task_cli_help s)

/-- Number of escapes of a string whose literal characters are not
backslashes: the number of its backslashes. -/
def escape_count (s : List Nat) : Nat := s.count 92

/-- The value `x` is representable in a `uint32_t` field. -/
def fits_u32 (x : Nat) : Prop := x < 2 ^ 32

/-- The value `x` is representable in an `int32_t` field. -/
def fits_i32 (x : Int) : Prop := -(2 ^ 31) ≤ x ∧ x < 2 ^ 31

instance (x : Nat) : Decidable (fits_u32 x) := by unfold fits_u32; infer_instance

instance (x : Int) : Decidable (fits_i32 x) := by unfold fits_i32; infer_instance

/-- Every field of the receive event that the handler copies is representable
in the 32-bit snapshot field it is copied to (as is every value of an integer
type of at most 32 bits). -/
def rx_event_fits (data : LmHandlerAppData_t) (params : LmHandlerRxParams_t) : Prop :=
  fits_u32 params.DownlinkCounter ∧ fits_u32 data.Port ∧ fits_i32 params.RxSlot ∧
    fits_i32 params.Datarate ∧ fits_i32 params.Rssi ∧ fits_i32 params.Snr

instance (data : LmHandlerAppData_t) (params : LmHandlerRxParams_t) :
    Decidable (rx_event_fits data params) := by
  unfold rx_event_fits; infer_instance

/-- The receive handler run on a sequence of events, oldest first. -/
def receive_all (s : AppState)
    (events : List (Option LmHandlerAppData_t × LmHandlerRxParams_t)) : AppState :=
  events.foldl (fun st e => on_lorawan_receive st e.1 e.2) s

/-- The snapshot's payload pointer is set whenever the snapshot holds bytes:
`payload` is `application_rx_buffer`, or `size` is still 0.  True at start-up
and kept by every handler (`snapshot_inv_init`, `snapshot_inv_kept`). -/
def snapshot_inv (s : AppState) : Prop :=
  s.application_rx_packet.payload = rx_payload_ptr.application_rx_buffer ∨
    s.application_rx_packet.size = 0

/-- The calls one iteration of the loop adds to the log. -/
def iteration_calls (s : AppState) (led_status : led_status_e) : List Call :=
  (application_task_loop s led_status).calls.drop s.calls.length

/-- The heartbeat: `am_hal_gpio_state_write(AM_BSP_GPIO_LED1,
AM_HAL_GPIO_OUTPUT_TOGGLE)`. -/
def led1_toggle : Call :=
  Call.am_hal_gpio_state_write gpio_pin.AM_BSP_GPIO_LED1
    am_hal_gpio_write_type_e.AM_HAL_GPIO_OUTPUT_TOGGLE

/-- An environment for concrete command lines: tick rate `rate`, 8-byte EUIs,
16-byte keys, class A, time zero, zero keys, no multicast session. -/
def CliEnv.nominal (rate : Nat) : CliEnv :=
  { configTICK_RATE_HZ := rate
    SE_EUI_SIZE := 8
    SE_KEY_SIZE := 16
    cls := lorawan_class_e.LORAWAN_CLASS_A
    timestamp_seconds := 0
    localtime := { tm_mon := 0, tm_mday := 1, tm_year := 70, tm_hour := 0, tm_min := 0, tm_sec := 0 }
    dev_eui := fun _ => 0
    join_eui := fun _ => 0
    app_key := fun _ => 0
    nwk_key := fun _ => 0
    mcast_started := false
    mcast_remaining := 0 }

/-- A `periodic` command line: `periodic stop`, or `periodic start` with or
without its period argument. -/
inductive PeriodicCommand
  | stop
  | start (period : Option (List Nat))

/-- The arguments of a `periodic` command line. -/
def PeriodicCommand.argv : PeriodicCommand → List (List Nat)
  | PeriodicCommand.stop => [lit "lorawan", lit "periodic", lit "stop"]
  | PeriodicCommand.start none => [lit "lorawan", lit "periodic", lit "start"]
  | PeriodicCommand.start (some p) => [lit "lorawan", lit "periodic", lit "start", p]

/-- The `periodic` handler run on a sequence of command lines, oldest first. -/
def run_periodic (env : CliEnv) (s : CliState) : List PeriodicCommand → Except Fault CliState
  | [] => Except.ok s
  | c :: cs =>
    match lorawan_task_cli_periodic env s c.argv with
    | Except.ok s1 => run_periodic env s1 cs
    | Except.error e => Except.error e

/-- The handle and the timer service agree: with a null handle no
periodic-transmit timer exists, with a handle exactly one exists and it is the
one the handle names. -/
def timer_inv (s : CliState) : Prop :=
  match s.periodic_transmit_timer with
  | none => s.timers = []
  | some h => ∃ t, s.timers = [t] ∧ t.handle = h

/-- The value of `ui32Period` in `periodic start`: 300 without the period
argument, else the argument read by `strtol`. -/
def start_period (p : Option (List Nat)) : Nat :=
  match p with
  | none => 300
  | some a => to_u32 (strtol10 a)

/-! ## The hex-escape decoder: proofs -/

theorem hexval_bounds {h d : Nat} (hd : hexval h = some d) : 48 ≤ h ∧ h ≤ 102 ∧ d ≤ 15 := by
  unfold hexval at hd
  split_ifs at hd with h1 h2 h3 <;> simp at hd <;> omega

theorem hexval_ne_backslash {h d : Nat} (hd : hexval h = some d) : h ≠ 92 := by
  unfold hexval at hd
  split_ifs at hd with h1 h2 h3 <;> omega

theorem hexval_not_space {h d : Nat} (hd : hexval h = some d) : isspace h = false := by
  have hb := hexval_bounds hd
  simp [isspace]
  omega

theorem strtol16_two_digits {h1 h2 d1 d2 : Nat} (e1 : hexval h1 = some d1)
    (e2 : hexval h2 = some d2) :
    to_uint8 (strtol16 (cstring [h1, h2, 0])) = 16 * d1 + d2 := by
  have b1 := hexval_bounds e1
  have b2 := hexval_bounds e2
  have n1 : h1 ≠ 0 := by omega
  have n2 : h2 ≠ 0 := by omega
  have c1 : (h1 != 0) = true := by simpa using n1
  have c2 : (h2 != 0) = true := by simpa using n2
  have hc : cstring [h1, h2, 0] = [h1, h2] := by simp [cstring, List.takeWhile, c1, c2]
  have hs : List.dropWhile isspace [h1, h2] = [h1, h2] := by
    simp [List.dropWhile, hexval_not_space e1]
  have m1 : h1 ≠ 45 := by omega
  have m2 : h1 ≠ 43 := by omega
  simp [hc, strtol16, hs, strtol_sign, m1, m2, strtol_prefix16, strtol_digits16, e1, e2, to_uint8]
  omega

theorem convert_hex_string_step_advances (inp : Mem) (st : HexState) :
    st.n + 1 ≤ (convert_hex_string_step inp st).n := by
  by_cases h1 : inp st.n = 92 <;> by_cases h2 : inp (st.n + 1) = 120 <;>
    simp [convert_hex_string_step, h1, h2]

/-- The loop leaves by its condition: `inlen` iterations are enough. -/
theorem convert_hex_string_loop_exits (inp : Mem) (inlen : Nat) :
    ∀ (fuel : Nat) (st : HexState), inlen ≤ st.n + fuel →
      inlen ≤ (convert_hex_string_loop inp inlen fuel st).n := by
  intro fuel
  induction fuel with
  | zero => intro st h; simpa [convert_hex_string_loop] using h
  | succ f ih =>
    intro st h
    simp only [convert_hex_string_loop]
    split_ifs with hlt
    · apply ih
      have := convert_hex_string_step_advances inp st
      omega
    · omega

theorem store_list_apply (bs : List Nat) :
    ∀ (m : Mem) (k i : Nat),
      store_list m k bs i = if k ≤ i ∧ i < k + bs.length then bs.getD (i - k) 0 else m i := by
  induction bs with
  | nil =>
    intro m k i
    have h : ¬ (k ≤ i ∧ i < k) := by omega
    simp [store_list, h]
  | cons b bs ih =>
    intro m k i
    simp only [store_list, ih, List.length_cons]
    by_cases h1 : i = k
    · subst h1
      simp [store]
    · by_cases h2 : k + 1 ≤ i ∧ i < k + 1 + bs.length
      · have h3 : k ≤ i ∧ i < k + (bs.length + 1) := by omega
        have h4 : i - k = (i - (k + 1)) + 1 := by omega
        simp [h2, h3, h4]
      · have h3 : ¬ (k ≤ i ∧ i < k + (bs.length + 1)) := by omega
        simp [h2, h3, store, h1]

theorem convert_hex_string_loop_writes (inp : Mem) (inlen : Nat) {s bs : List Nat}
    (h : Writes s bs) :
    ∀ (fuel n : Nat) (out : Mem) (k : Nat), s.length ≤ fuel → n + s.length = inlen →
      (∀ i, i < s.length → inp (n + i) = s.getD i 0) →
      convert_hex_string_loop inp inlen fuel { n := n, out := out, outlen := k } =
        { n := inlen, out := store_list out k bs, outlen := k + bs.length } := by
  induction h with
  | nil =>
    intro fuel n out k _ hn _
    simp at hn
    subst hn
    cases fuel <;> simp [convert_hex_string_loop, store_list]
  | lit c s bs hc hlt _ ih =>
    intro fuel n out k hf hn hin
    simp only [List.length_cons] at hf hn hin
    obtain ⟨f, rfl⟩ : ∃ f, fuel = f + 1 := ⟨fuel - 1, by omega⟩
    have h0 : inp n = c := by simpa using hin 0 (by omega)
    have hlt2 : n < inlen := by omega
    have hmod : c % 256 = c := Nat.mod_eq_of_lt hlt
    simp only [convert_hex_string_loop, hlt2, if_true, convert_hex_string_step, h0, hc, if_false,
      hmod]
    rw [ih f (n + 1) (store out k c) (k + 1) (by omega) (by omega)
      (fun i hi => by
        have := hin (i + 1) (by omega)
        simpa [Nat.add_assoc, Nat.add_comm 1 i] using this)]
    simp [store_list, Nat.add_assoc, Nat.add_comm 1]
  | esc h1 h2 d1 d2 s bs e1 e2 _ ih =>
    intro fuel n out k hf hn hin
    simp only [List.length_cons] at hf hn hin
    obtain ⟨f, rfl⟩ : ∃ f, fuel = f + 1 := ⟨fuel - 1, by omega⟩
    have h0 : inp n = 92 := by simpa using hin 0 (by omega)
    have h1' : inp (n + 1) = 120 := by simpa using hin 1 (by omega)
    have h2' : inp (n + 1 + 1) = h1 := by simpa [Nat.add_assoc] using hin 2 (by omega)
    have h3' : inp (n + 1 + 1 + 1) = h2 := by simpa [Nat.add_assoc] using hin 3 (by omega)
    have hlt2 : n < inlen := by omega
    simp only [convert_hex_string_loop, hlt2, if_true, convert_hex_string_step, h0, h1', h2', h3',
      strtol16_two_digits e1 e2]
    rw [ih f (n + 1 + 1 + 1 + 1) (store out k (16 * d1 + d2)) (k + 1) (by omega) (by omega)
      (fun i hi => by
        have := hin (i + 4) (by omega)
        simpa [Nat.add_assoc, Nat.add_comm 4 i] using this)]
    simp [store_list, Nat.add_assoc, Nat.add_comm 1]

theorem writes_length {s bs : List Nat} (h : Writes s bs) :
    bs.length + 3 * escape_count s = s.length := by
  induction h with
  | nil => simp [escape_count]
  | lit c s bs hc _ _ ih =>
    have : escape_count (c :: s) = escape_count s := by
      simp [escape_count, List.count_cons, hc]
    simp only [this, List.length_cons]
    omega
  | esc h1 h2 d1 d2 s bs e1 e2 _ ih =>
    have n1 : h1 ≠ 92 := hexval_ne_backslash e1
    have n2 : h2 ≠ 92 := hexval_ne_backslash e2
    have : escape_count (92 :: 120 :: h1 :: h2 :: s) = escape_count s + 1 := by
      simp [escape_count, List.count_cons, n1, n2]
    simp only [this, List.length_cons]
    omega

/-- C1: for every byte sequence `bs` and every string `s` that writes each
byte of `bs` literally (a character other than backslash) or as an escape
`\xHH`, `convert_hex_string(s, len(s))` returns `outlen = len(bs) = len(s) -
3 * (number of escapes)`, leaves exactly `bs` in the first `outlen` bytes of
the output, and writes nothing behind them. -/
theorem convert_hex_string_decodes (s bs : List Nat) (h : Writes s bs) (inp out : Mem)
    (hin : ∀ i, i < s.length → inp i = s.getD i 0) :
    (convert_hex_string inp s.length out).2 = bs.length ∧
    bs.length = s.length - 3 * escape_count s ∧
    (∀ i, i < bs.length → (convert_hex_string inp s.length out).1 i = bs.getD i 0) ∧
    (∀ i, bs.length ≤ i → (convert_hex_string inp s.length out).1 i = out i) := by
  have hl := convert_hex_string_loop_writes inp s.length h s.length 0 out 0 (Nat.le_refl _)
    (by simp) (fun i hi => by simpa using hin i hi)
  have hlen := writes_length h
  simp only [convert_hex_string, hl, Nat.zero_add]
  refine ⟨trivial, by omega, ?_, ?_⟩
  · intro i hi
    rw [store_list_apply]
    simp [hi]
  · intro i hi
    rw [store_list_apply]
    have hn : ¬ (0 ≤ i ∧ i < 0 + bs.length) := by omega
    rw [if_neg hn]

/-- C1 at the string `A\x42C`: the decoder returns length 3 and the bytes
`0x41, 0x42, 0x43`. -/
theorem convert_hex_string_decodes_witness :
    Writes [65, 92, 120, 52, 50, 67] [65, 66, 67] ∧
    (convert_hex_string (string_mem [65, 92, 120, 52, 50, 67]) 6 (fun _ => 0)).2 = 3 ∧
    3 = 6 - 3 * escape_count [65, 92, 120, 52, 50, 67] ∧
    (∀ i, i < 3 →
      (convert_hex_string (string_mem [65, 92, 120, 52, 50, 67]) 6 (fun _ => 0)).1 i =
        [65, 66, 67].getD i 0) :=
  have hw : Writes [65, 92, 120, 52, 50, 67] [65, 66, 67] :=
    Writes.lit 65 _ _ (by decide) (by decide)
      (Writes.esc 52 50 4 2 _ _ (by decide) (by decide)
        (Writes.lit 67 _ _ (by decide) (by decide) Writes.nil))
  have h := convert_hex_string_decodes [65, 92, 120, 52, 50, 67] [65, 66, 67] hw
    (string_mem [65, 92, 120, 52, 50, 67]) (fun _ => 0) (fun _ _ => rfl)
  ⟨hw, h.1, h.2.1, h.2.2.1⟩

/-! ## The stack callbacks: proofs -/

theorem u32_of_fits {x : Nat} (h : fits_u32 x) : u32 x = x := Nat.mod_eq_of_lt h

theorem i32_of_fits {x : Int} (h : fits_i32 x) : i32 x = x := by
  unfold fits_i32 at h
  unfold i32
  have h1 : (x + 2 ^ 31) % 2 ^ 32 = x + 2 ^ 31 := Int.emod_eq_of_lt (by omega) (by omega)
  omega

theorem u32_le (x : Nat) : u32 x ≤ x := Nat.mod_le _ _

/-- C2: a receive event whose application data is null or whose port is 0
leaves the whole state as it was: the snapshot, the receive buffer and the
queue are unchanged and nothing is enqueued. -/
theorem on_lorawan_receive_discards (s : AppState) (data : Option LmHandlerAppData_t)
    (params : LmHandlerRxParams_t) (h : ∀ d, data = some d → d.Port = 0) :
    on_lorawan_receive s data params = s := by
  cases data with
  | none => rfl
  | some d => simp [on_lorawan_receive, h d rfl]

/-- C2 at a null event and at a port-0 event carrying two bytes. -/
theorem on_lorawan_receive_discards_witness :
    on_lorawan_receive (AppState.init 7) none
        { DownlinkCounter := 3, RxSlot := 0, Datarate := 1, Rssi := -40, Snr := 9 } =
      AppState.init 7 ∧
    on_lorawan_receive (AppState.init 7)
        (some { Port := 0, BufferSize := 2, Buffer := string_mem [1, 2] })
        { DownlinkCounter := 3, RxSlot := 0, Datarate := 1, Rssi := -40, Snr := 9 } =
      AppState.init 7 :=
  ⟨on_lorawan_receive_discards _ none _ (fun _ hd => nomatch hd),
   on_lorawan_receive_discards _ (some { Port := 0, BufferSize := 2, Buffer := string_mem [1, 2] })
     _ (fun _ hd => by cases hd; rfl)⟩

/-- C3: a receive event with data, a non-zero port and a payload length within
the buffer capacity sets the snapshot's counter, port, slot, data rate, RSSI,
SNR and size to the event's values, makes the first `size` bytes of the buffer
equal to the payload, and appends exactly one `APP_MSG_RX` to a queue that is
not full. -/
theorem on_lorawan_receive_snapshot (s : AppState) (data : LmHandlerAppData_t)
    (params : LmHandlerRxParams_t) (hport : data.Port ≠ 0)
    (hsize : data.BufferSize ≤ APPLICATION_RX_BUFFER_MAX_SIZE)
    (hfit : rx_event_fits data params) :
    (on_lorawan_receive s (some data) params).application_rx_packet.counter =
      params.DownlinkCounter ∧
    (on_lorawan_receive s (some data) params).application_rx_packet.port = data.Port ∧
    (on_lorawan_receive s (some data) params).application_rx_packet.slot = params.RxSlot ∧
    (on_lorawan_receive s (some data) params).application_rx_packet.dr = params.Datarate ∧
    (on_lorawan_receive s (some data) params).application_rx_packet.rssi = params.Rssi ∧
    (on_lorawan_receive s (some data) params).application_rx_packet.snr = params.Snr ∧
    (on_lorawan_receive s (some data) params).application_rx_packet.size = data.BufferSize ∧
    (∀ i, i < data.BufferSize →
      (on_lorawan_receive s (some data) params).application_rx_buffer i = data.Buffer i) ∧
    (s.application_queue.length < APPLICATION_QUEUE_MAX_SIZE →
      (on_lorawan_receive s (some data) params).application_queue =
        s.application_queue ++ [APP_MSG_RX]) := by
  obtain ⟨hc, hp, hs, hd, hr, hn⟩ := hfit
  have hb : u32 data.BufferSize = data.BufferSize :=
    u32_of_fits (by unfold fits_u32; unfold APPLICATION_RX_BUFFER_MAX_SIZE at hsize; omega)
  simp only [on_lorawan_receive, hport, if_false, u32_of_fits hc, u32_of_fits hp,
    i32_of_fits hs, i32_of_fits hd, i32_of_fits hr, i32_of_fits hn, hb, true_and]
  refine ⟨?_, ?_⟩
  · intro i hi
    simp [memcpy, hi]
  · intro hq
    simp [xQueueSend, hq]

/-- C3 in the scenario of the specification: after a successful join, a
downlink on port 5 with payload `01 02` gives a snapshot with port 5, size 2,
those two bytes, and one `APP_MSG_RX` in the queue. -/
theorem on_lorawan_receive_snapshot_witness :
    (on_lorawan_receive
        (on_lorawan_join_request (AppState.init 7)
          { Status := LmHandlerErrorStatus_t.other 0 })
        (some { Port := 5, BufferSize := 2, Buffer := string_mem [1, 2] })
        { DownlinkCounter := 3, RxSlot := 0, Datarate := 1, Rssi := -40, Snr := 9 }
      ).application_rx_packet.port = 5 ∧
    (on_lorawan_receive
        (on_lorawan_join_request (AppState.init 7)
          { Status := LmHandlerErrorStatus_t.other 0 })
        (some { Port := 5, BufferSize := 2, Buffer := string_mem [1, 2] })
        { DownlinkCounter := 3, RxSlot := 0, Datarate := 1, Rssi := -40, Snr := 9 }
      ).application_rx_packet.size = 2 ∧
    (∀ i, i < 2 →
      (on_lorawan_receive
          (on_lorawan_join_request (AppState.init 7)
            { Status := LmHandlerErrorStatus_t.other 0 })
          (some { Port := 5, BufferSize := 2, Buffer := string_mem [1, 2] })
          { DownlinkCounter := 3, RxSlot := 0, Datarate := 1, Rssi := -40, Snr := 9 }
        ).application_rx_buffer i = string_mem [1, 2] i) ∧
    (on_lorawan_receive
        (on_lorawan_join_request (AppState.init 7)
          { Status := LmHandlerErrorStatus_t.other 0 })
        (some { Port := 5, BufferSize := 2, Buffer := string_mem [1, 2] })
        { DownlinkCounter := 3, RxSlot := 0, Datarate := 1, Rssi := -40, Snr := 9 }
      ).application_queue = [APP_MSG_RX] :=
  have h := on_lorawan_receive_snapshot
    (on_lorawan_join_request (AppState.init 7) { Status := LmHandlerErrorStatus_t.other 0 })
    { Port := 5, BufferSize := 2, Buffer := string_mem [1, 2] }
    { DownlinkCounter := 3, RxSlot := 0, Datarate := 1, Rssi := -40, Snr := 9 }
    (by decide) (by decide) (by decide)
  ⟨h.2.1, h.2.2.2.2.2.2.1, h.2.2.2.2.2.2.2.1, h.2.2.2.2.2.2.2.2 (by decide)⟩

/-- One event with a stated length of at most the capacity keeps the snapshot
size within the capacity and leaves what lies behind the array untouched. -/
theorem on_lorawan_receive_bounded (s : AppState) (data : Option LmHandlerAppData_t)
    (params : LmHandlerRxParams_t)
    (h0 : s.application_rx_packet.size ≤ APPLICATION_RX_BUFFER_MAX_SIZE)
    (hd : ∀ d, data = some d → d.BufferSize ≤ APPLICATION_RX_BUFFER_MAX_SIZE) :
    (on_lorawan_receive s data params).application_rx_packet.size ≤
        APPLICATION_RX_BUFFER_MAX_SIZE ∧
      ∀ i, APPLICATION_RX_BUFFER_MAX_SIZE ≤ i →
        (on_lorawan_receive s data params).application_rx_buffer i =
          s.application_rx_buffer i := by
  cases data with
  | none => exact ⟨h0, fun _ _ => rfl⟩
  | some d =>
    have hb := hd d rfl
    have hu := u32_le d.BufferSize
    by_cases hp : d.Port = 0
    · have he : on_lorawan_receive s (some d) params = s := by simp [on_lorawan_receive, hp]
      rw [he]
      exact ⟨h0, fun _ _ => rfl⟩
    · simp only [on_lorawan_receive, hp, if_false]
      refine ⟨by omega, ?_⟩
      intro i hi
      have hn : ¬ i < u32 d.BufferSize := by omega
      simp [memcpy, hn]

/-- C4: over every sequence of receive events, from a state whose snapshot size
is within the capacity (as at start-up), the snapshot size never exceeds the
capacity of 256 and no byte at a buffer index of 256 or more is written.  An
event's stated length is a value of the 8-bit `BufferSize`, so no event states
a length above the capacity. -/
theorem receive_all_within_capacity
    (events : List (Option LmHandlerAppData_t × LmHandlerRxParams_t)) :
    ∀ (s : AppState), s.application_rx_packet.size ≤ APPLICATION_RX_BUFFER_MAX_SIZE →
      (receive_all s events).application_rx_packet.size ≤ APPLICATION_RX_BUFFER_MAX_SIZE ∧
        ∀ i, APPLICATION_RX_BUFFER_MAX_SIZE ≤ i →
          (receive_all s events).application_rx_buffer i = s.application_rx_buffer i := by
  induction events with
  | nil => intro s h0; exact ⟨h0, fun _ _ => rfl⟩
  | cons e es ih =>
    intro s h0
    have h1 := on_lorawan_receive_bounded s e.1 e.2 h0 (fun d _ => by
      have hlt := d.BufferSize_lt
      unfold APPLICATION_RX_BUFFER_MAX_SIZE
      omega)
    have h2 := ih (on_lorawan_receive s e.1 e.2) h1.1
    refine ⟨h2.1, fun i hi => ?_⟩
    have h3 := h2.2 i hi
    simp only [receive_all, List.foldl_cons] at h3 ⊢
    rw [h3, h1.2 i hi]

/-- C4 from start-up, over a beacon, a downlink of the longest length an event
can state (255 bytes) and a 2-byte downlink: the size stays within 256 and the
byte behind the array is still the 0 it was. -/
theorem receive_all_within_capacity_witness :
    (receive_all (AppState.init 7)
        [ (none, { DownlinkCounter := 1, RxSlot := 0, Datarate := 0, Rssi := -90, Snr := 2 }),
          (some { Port := 2, BufferSize := 255, Buffer := fun _ => 170 },
            { DownlinkCounter := 2, RxSlot := 1, Datarate := 3, Rssi := -70, Snr := 5 }),
          (some { Port := 5, BufferSize := 2, Buffer := string_mem [1, 2] },
            { DownlinkCounter := 3, RxSlot := 0, Datarate := 1, Rssi := -40, Snr := 9 })
        ]).application_rx_packet.size ≤ 256 ∧
    (receive_all (AppState.init 7)
        [ (none, { DownlinkCounter := 1, RxSlot := 0, Datarate := 0, Rssi := -90, Snr := 2 }),
          (some { Port := 2, BufferSize := 255, Buffer := fun _ => 170 },
            { DownlinkCounter := 2, RxSlot := 1, Datarate := 3, Rssi := -70, Snr := 5 }),
          (some { Port := 5, BufferSize := 2, Buffer := string_mem [1, 2] },
            { DownlinkCounter := 3, RxSlot := 0, Datarate := 1, Rssi := -40, Snr := 9 })
        ]).application_rx_buffer 256 = 0 :=
  have h := receive_all_within_capacity
    [ (none, { DownlinkCounter := 1, RxSlot := 0, Datarate := 0, Rssi := -90, Snr := 2 }),
      (some { Port := 2, BufferSize := 255, Buffer := fun _ => 170 },
        { DownlinkCounter := 2, RxSlot := 1, Datarate := 3, Rssi := -70, Snr := 5 }),
      (some { Port := 5, BufferSize := 2, Buffer := string_mem [1, 2] },
        { DownlinkCounter := 3, RxSlot := 0, Datarate := 1, Rssi := -40, Snr := 9 }) ]
    (AppState.init 7) (by decide)
  ⟨h.1, h.2 256 (by decide)⟩

/-- C5: on a join-request event with status `LORAMAC_HANDLER_ERROR` the handler
makes one call, `lorawan_join`, and no other: no class change, no time-sync
request, no LED command. -/
theorem on_lorawan_join_request_error (s : AppState) (params : LmHandlerJoinParams_t)
    (h : params.Status = LmHandlerErrorStatus_t.LORAMAC_HANDLER_ERROR) :
    (on_lorawan_join_request s params).calls = s.calls ++ [Call.lorawan_join] := by
  simp [on_lorawan_join_request, AppState.call, h]

/-- C5 from start-up: the call log after the error event is the one
`lorawan_join`. -/
theorem on_lorawan_join_request_error_witness :
    (on_lorawan_join_request (AppState.init 7)
      { Status := LmHandlerErrorStatus_t.LORAMAC_HANDLER_ERROR }).calls =
      [Call.lorawan_join] :=
  on_lorawan_join_request_error (AppState.init 7)
    { Status := LmHandlerErrorStatus_t.LORAMAC_HANDLER_ERROR } rfl

/-- C6: on a join-request event with any status other than
`LORAMAC_HANDLER_ERROR` the handler sets the class to class A, then requests a
time sync, then sends `LED_EFFECT_PULSE2` with repeat 1 on the application LED
handle, and makes no other call (no `lorawan_join`). -/
theorem on_lorawan_join_request_success (s : AppState) (params : LmHandlerJoinParams_t)
    (h : params.Status ≠ LmHandlerErrorStatus_t.LORAMAC_HANDLER_ERROR) :
    (on_lorawan_join_request s params).calls =
      s.calls ++
        [ Call.lorawan_class_set lorawan_class_e.LORAWAN_CLASS_A,
          Call.lorawan_request_time_sync,
          Call.led_send
            { ui32Handle := s.application_led_handle
              ui32Id := led_effect_e.LED_EFFECT_PULSE2
              ui32Repeat := 1 } ] := by
  simp [on_lorawan_join_request, AppState.call, h, APPLICATION_DEFAULT_LORAWAN_CLASS]

/-- C6 from start-up with LED handle 7 and a success status. -/
theorem on_lorawan_join_request_success_witness :
    (on_lorawan_join_request (AppState.init 7)
      { Status := LmHandlerErrorStatus_t.other 0 }).calls =
      [ Call.lorawan_class_set lorawan_class_e.LORAWAN_CLASS_A,
        Call.lorawan_request_time_sync,
        Call.led_send
          { ui32Handle := 7, ui32Id := led_effect_e.LED_EFFECT_PULSE2, ui32Repeat := 1 } ] :=
  on_lorawan_join_request_success (AppState.init 7)
    { Status := LmHandlerErrorStatus_t.other 0 } (by decide)

/-- C7: on an MLME-request event of type Join with status duty-cycle
restricted, the handler sends `LED_EFFECT_PULSE1` with repeat 1 and leaves the
joining flag 0; of type Join with any other status, it sends
`LED_EFFECT_BREATHING` with repeat 0 and leaves the joining flag 1; of any
other type, it makes no call and leaves the state, the joining flag included,
as it was. -/
theorem on_lorawan_mlme_request_effect (s : AppState) (status : LoRaMacStatus_t)
    (mlme : MlmeReq_t) (delay : Nat) :
    (mlme.Type_ = Mlme_t.MLME_JOIN →
      status = LoRaMacStatus_t.LORAMAC_STATUS_DUTYCYCLE_RESTRICTED →
      (on_lorawan_mlme_request s status mlme delay).calls =
          s.calls ++
            [ Call.led_send
                { ui32Handle := s.application_led_handle
                  ui32Id := led_effect_e.LED_EFFECT_PULSE1
                  ui32Repeat := 1 } ] ∧
        (on_lorawan_mlme_request s status mlme delay).lorawan_joining = 0) ∧
    (mlme.Type_ = Mlme_t.MLME_JOIN →
      status ≠ LoRaMacStatus_t.LORAMAC_STATUS_DUTYCYCLE_RESTRICTED →
      (on_lorawan_mlme_request s status mlme delay).calls =
          s.calls ++
            [ Call.led_send
                { ui32Handle := s.application_led_handle
                  ui32Id := led_effect_e.LED_EFFECT_BREATHING
                  ui32Repeat := 0 } ] ∧
        (on_lorawan_mlme_request s status mlme delay).lorawan_joining = 1) ∧
    (mlme.Type_ ≠ Mlme_t.MLME_JOIN → on_lorawan_mlme_request s status mlme delay = s) := by
  refine ⟨fun ht hs => ?_, fun ht hs => ?_, fun ht => ?_⟩
  · simp [on_lorawan_mlme_request, AppState.call, ht, hs]
  · simp [on_lorawan_mlme_request, AppState.call, ht, hs]
  · simp [on_lorawan_mlme_request, ht]

/-- C7 at three events from a state with joining flag 1: a duty-cycle
restricted Join clears the flag, another Join sets it, a non-Join request
keeps it. -/
theorem on_lorawan_mlme_request_effect_witness :
    (on_lorawan_mlme_request { AppState.init 7 with lorawan_joining := 1 }
        LoRaMacStatus_t.LORAMAC_STATUS_DUTYCYCLE_RESTRICTED { Type_ := Mlme_t.MLME_JOIN } 0
      ).lorawan_joining = 0 ∧
    (on_lorawan_mlme_request (AppState.init 7) (LoRaMacStatus_t.other 0)
        { Type_ := Mlme_t.MLME_JOIN } 0).lorawan_joining = 1 ∧
    (on_lorawan_mlme_request { AppState.init 7 with lorawan_joining := 1 }
        (LoRaMacStatus_t.other 0) { Type_ := Mlme_t.other 5 } 0).lorawan_joining = 1 :=
  ⟨((on_lorawan_mlme_request_effect { AppState.init 7 with lorawan_joining := 1 }
        LoRaMacStatus_t.LORAMAC_STATUS_DUTYCYCLE_RESTRICTED { Type_ := Mlme_t.MLME_JOIN } 0).1
        rfl rfl).2,
   ((on_lorawan_mlme_request_effect (AppState.init 7) (LoRaMacStatus_t.other 0)
        { Type_ := Mlme_t.MLME_JOIN } 0).2.1 rfl (by decide)).2,
   congrArg AppState.lorawan_joining
     ((on_lorawan_mlme_request_effect { AppState.init 7 with lorawan_joining := 1 }
        (LoRaMacStatus_t.other 0) { Type_ := Mlme_t.other 5 } 0).2.2 (by decide))⟩

/-- C8: on the power-gated boards the sleep hook writes SET to `nLORA_EN`
exactly when the joining flag is 0 and makes no call at all when the flag is
not 0, and the wake hook writes CLEAR to `nLORA_EN` whatever the flag is. -/
theorem radio_power_gate (s : AppState) :
    ((on_lorawan_sleep true s).calls =
        s.calls ++
          [ Call.am_hal_gpio_state_write gpio_pin.AM_BSP_GPIO_PETAL_CORE_nLORA_EN
              am_hal_gpio_write_type_e.AM_HAL_GPIO_OUTPUT_SET ] ↔
      s.lorawan_joining = 0) ∧
    (s.lorawan_joining ≠ 0 → on_lorawan_sleep true s = s) ∧
    (on_lorawan_wake true s).calls =
      s.calls ++
        [ Call.am_hal_gpio_state_write gpio_pin.AM_BSP_GPIO_PETAL_CORE_nLORA_EN
            am_hal_gpio_write_type_e.AM_HAL_GPIO_OUTPUT_CLEAR ] := by
  refine ⟨?_, fun h => ?_, ?_⟩
  · by_cases h : s.lorawan_joining = 0
    · simp [on_lorawan_sleep, AppState.call, h]
    · simp [on_lorawan_sleep, h]
  · simp [on_lorawan_sleep, h]
  · simp [on_lorawan_wake, AppState.call]

/-- C8 while a join is in flight (joining flag 1): the sleep hook leaves the
state as it is, and the wake hook writes CLEAR. -/
theorem radio_power_gate_witness :
    on_lorawan_sleep true
        (on_lorawan_mlme_request (AppState.init 7) (LoRaMacStatus_t.other 0)
          { Type_ := Mlme_t.MLME_JOIN } 0) =
      on_lorawan_mlme_request (AppState.init 7) (LoRaMacStatus_t.other 0)
        { Type_ := Mlme_t.MLME_JOIN } 0 ∧
    (on_lorawan_sleep true (AppState.init 7)).calls =
      [ Call.am_hal_gpio_state_write gpio_pin.AM_BSP_GPIO_PETAL_CORE_nLORA_EN
          am_hal_gpio_write_type_e.AM_HAL_GPIO_OUTPUT_SET ] :=
  ⟨(radio_power_gate
      (on_lorawan_mlme_request (AppState.init 7) (LoRaMacStatus_t.other 0)
        { Type_ := Mlme_t.MLME_JOIN } 0)).2.1 (by decide),
   (radio_power_gate (AppState.init 7)).1.mpr rfl⟩

/-! ## The dispatch loop: proofs -/

/-- Every entry of the downlink report is a console print. -/
theorem downlink_report_prints (s : AppState) :
    ∀ c, c ∈ downlink_report s → ∃ fmt args, c = Call.am_util_stdio_printf fmt args := by
  intro c hc
  simp only [downlink_report, List.mem_append, List.mem_cons, List.mem_singleton,
    List.not_mem_nil, or_false, List.mem_flatMap, List.mem_range, print_payload_byte] at hc
  rcases hc with (hc | ⟨i, _, hc⟩) | hc
  · rcases hc with h | h | h | h | h | h | h | h | h <;> exact ⟨_, _, h⟩
  · rcases hc with hc | hc
    · by_cases h8 : i % 8 = 0
      · rw [if_pos h8, List.mem_singleton] at hc
        exact ⟨_, _, hc⟩
      · rw [if_neg h8] at hc
        exact absurd hc (List.not_mem_nil _)
    · exact ⟨_, _, hc⟩
  · exact ⟨_, _, hc⟩

/-- The downlink report reads the snapshot and the buffer only. -/
theorem downlink_report_queue (s : AppState) (q : List Nat) :
    downlink_report { s with application_queue := q } = downlink_report s := rfl

/-- In a state with the snapshot's payload pointer set, the downlink report is
the heading, the seven fields of the snapshot with their values, and the bytes
of `application_rx_buffer` below `size` in order, eight to a line. -/
theorem downlink_report_eq (s : AppState) (hinv : snapshot_inv s) :
    downlink_report s =
      [ Call.am_util_stdio_printf "\n\rReceived Data\n\r" [],
        Call.am_util_stdio_printf "  COUNTER   : %-4d\n\r"
          [(s.application_rx_packet.counter : Nat)],
        Call.am_util_stdio_printf "  PORT      : %-4d\n\r" [(s.application_rx_packet.port : Nat)],
        Call.am_util_stdio_printf "  SLOT      : %-4d\n\r" [s.application_rx_packet.slot],
        Call.am_util_stdio_printf "  DATA RATE : %-4d\n\r" [s.application_rx_packet.dr],
        Call.am_util_stdio_printf "  RSSI      : %-4d\n\r" [s.application_rx_packet.rssi],
        Call.am_util_stdio_printf "  SNR       : %-4d\n\r" [s.application_rx_packet.snr],
        Call.am_util_stdio_printf "  SIZE      : %-4d\n\r" [(s.application_rx_packet.size : Nat)],
        Call.am_util_stdio_printf "  PAYLOAD   :" [] ] ++
      (List.range s.application_rx_packet.size).flatMap (fun i =>
        (if i % 8 = 0 then [Call.am_util_stdio_printf "\n\r    " []] else []) ++
          [Call.am_util_stdio_printf "%02x " [(s.application_rx_buffer i : Nat)]]) ++
      [ Call.am_util_stdio_printf "\n\r" [] ] := by
  unfold downlink_report
  rcases hinv with hp | h0
  · have hf : print_payload_byte s = fun i =>
        (if i % 8 = 0 then [Call.am_util_stdio_printf "\n\r    " []] else []) ++
          [Call.am_util_stdio_printf "%02x " [(s.application_rx_buffer i : Nat)]] := by
      funext i
      simp [print_payload_byte, rx_payload_byte, hp]
    rw [hf]
  · rw [h0]
    rfl

/-- The start-up state has no snapshot bytes. -/
theorem snapshot_inv_init (led_handle : Nat) : snapshot_inv (AppState.init led_handle) :=
  Or.inr rfl

/-- Every callback and the loop keep `snapshot_inv`; an accepted downlink sets
the payload pointer. -/
theorem snapshot_inv_kept (s : AppState) (h : snapshot_inv s) :
    (∀ data params, snapshot_inv (on_lorawan_receive s data params)) ∧
    (∀ params, snapshot_inv (on_lorawan_join_request s params)) ∧
    (∀ status mlme delay, snapshot_inv (on_lorawan_mlme_request s status mlme delay)) ∧
    (∀ b, snapshot_inv (on_lorawan_sleep b s)) ∧
    (∀ b, snapshot_inv (on_lorawan_wake b s)) ∧
    snapshot_inv (on_button_pressed s) ∧
    (∀ join_state, snapshot_inv (setup_lorawan s join_state)) ∧
    (∀ led_status, snapshot_inv (application_task_loop s led_status)) := by
  refine ⟨?_, ?_, ?_, ?_, ?_, ?_, ?_, ?_⟩
  · intro data params
    cases data with
    | none => exact h
    | some d =>
      by_cases hp : d.Port = 0
      · simpa [on_lorawan_receive, hp] using h
      · exact Or.inl (by simp [on_lorawan_receive, hp])
  · intro params
    unfold snapshot_inv at h ⊢
    by_cases he : params.Status = LmHandlerErrorStatus_t.LORAMAC_HANDLER_ERROR <;>
      simpa [on_lorawan_join_request, AppState.call, he] using h
  · intro status mlme delay
    unfold snapshot_inv at h ⊢
    by_cases h1 : mlme.Type_ = Mlme_t.MLME_JOIN <;>
      by_cases h2 : status = LoRaMacStatus_t.LORAMAC_STATUS_DUTYCYCLE_RESTRICTED <;>
      simpa [on_lorawan_mlme_request, AppState.call, h1, h2] using h
  · intro b
    unfold snapshot_inv at h ⊢
    cases b <;> by_cases hj : s.lorawan_joining = 0 <;>
      simpa [on_lorawan_sleep, AppState.call, hj] using h
  · intro b
    unfold snapshot_inv at h ⊢
    cases b <;> simpa [on_lorawan_wake, AppState.call] using h
  · exact h
  · intro join_state
    unfold snapshot_inv at h ⊢
    cases join_state <;> simpa [setup_lorawan, AppState.call, LORAWAN_PM_ENABLE] using h
  · intro led_status
    unfold snapshot_inv at h ⊢
    cases hq : s.application_queue with
    | nil =>
      by_cases hl : led_status = led_status_e.LED_STATUS_IDLE <;>
        simpa [application_task_loop, xQueueReceive, hq, AppState.call, hl] using h
    | cons msg rest =>
      by_cases h1 : msg = APP_MSG_RX <;> by_cases h2 : msg = APP_MSG_BUTTON_PRESSED <;>
        by_cases hl : led_status = led_status_e.LED_STATUS_IDLE <;>
        simpa [application_task_loop, xQueueReceive, hq, process_downlink_packet,
          process_button_press, AppState.call, h1, h2, hl] using h

/-- C9: when the loop receives a message, an `APP_MSG_RX` makes it display the
Downlink Snapshot (the heading, then counter, port, slot, data rate, RSSI, SNR
and size with the snapshot's values, then every byte of the receive buffer
below `size` in order, eight to a line) and then send `LED_EFFECT_PULSE2` with
repeat 1, with no transmit; an `APP_MSG_BUTTON_PRESSED` makes it call
`lorawan_transmit` once, with port 1, unconfirmed, length 1 and payload `B`,
with no LED command; any other tag makes it call neither.  The only call that
follows in the iteration is the heartbeat write to LED1. -/
theorem application_task_loop_dispatch (s : AppState) (msg : Nat) (rest : List Nat)
    (led_status : led_status_e) (hq : s.application_queue = msg :: rest) :
    (msg = APP_MSG_RX → snapshot_inv s →
      (application_task_loop s led_status).calls =
        s.calls ++
          [ Call.am_util_stdio_printf "\n\rReceived Data\n\r" [],
            Call.am_util_stdio_printf "  COUNTER   : %-4d\n\r"
              [(s.application_rx_packet.counter : Nat)],
            Call.am_util_stdio_printf "  PORT      : %-4d\n\r"
              [(s.application_rx_packet.port : Nat)],
            Call.am_util_stdio_printf "  SLOT      : %-4d\n\r" [s.application_rx_packet.slot],
            Call.am_util_stdio_printf "  DATA RATE : %-4d\n\r" [s.application_rx_packet.dr],
            Call.am_util_stdio_printf "  RSSI      : %-4d\n\r" [s.application_rx_packet.rssi],
            Call.am_util_stdio_printf "  SNR       : %-4d\n\r" [s.application_rx_packet.snr],
            Call.am_util_stdio_printf "  SIZE      : %-4d\n\r"
              [(s.application_rx_packet.size : Nat)],
            Call.am_util_stdio_printf "  PAYLOAD   :" [] ] ++
          (List.range s.application_rx_packet.size).flatMap (fun i =>
            (if i % 8 = 0 then [Call.am_util_stdio_printf "\n\r    " []] else []) ++
              [Call.am_util_stdio_printf "%02x " [(s.application_rx_buffer i : Nat)]]) ++
          [ Call.am_util_stdio_printf "\n\r" [],
            Call.led_send
              { ui32Handle := s.application_led_handle
                ui32Id := led_effect_e.LED_EFFECT_PULSE2
                ui32Repeat := 1 } ] ++
          (if led_status = led_status_e.LED_STATUS_IDLE then
            [ Call.am_hal_gpio_state_write gpio_pin.AM_BSP_GPIO_LED1
                am_hal_gpio_write_type_e.AM_HAL_GPIO_OUTPUT_TOGGLE ]
          else [])) ∧
    (msg = APP_MSG_BUTTON_PRESSED →
      (application_task_loop s led_status).calls =
        s.calls ++ [ Call.lorawan_transmit 1 LORAMAC_HANDLER_UNCONFIRMED_MSG 1 [66] ] ++
          (if led_status = led_status_e.LED_STATUS_IDLE then
            [ Call.am_hal_gpio_state_write gpio_pin.AM_BSP_GPIO_LED1
                am_hal_gpio_write_type_e.AM_HAL_GPIO_OUTPUT_TOGGLE ]
          else [])) ∧
    (msg ≠ APP_MSG_RX → msg ≠ APP_MSG_BUTTON_PRESSED →
      (application_task_loop s led_status).calls =
        s.calls ++
          (if led_status = led_status_e.LED_STATUS_IDLE then
            [ Call.am_hal_gpio_state_write gpio_pin.AM_BSP_GPIO_LED1
                am_hal_gpio_write_type_e.AM_HAL_GPIO_OUTPUT_TOGGLE ]
          else [])) := by
  refine ⟨fun hm hinv => ?_, fun hm => ?_, fun h1 h2 => ?_⟩
  · subst hm
    have hc : (application_task_loop s led_status).calls =
        s.calls ++ downlink_report s ++
          [ Call.led_send
              { ui32Handle := s.application_led_handle
                ui32Id := led_effect_e.LED_EFFECT_PULSE2
                ui32Repeat := 1 } ] ++
          (if led_status = led_status_e.LED_STATUS_IDLE then
            [ Call.am_hal_gpio_state_write gpio_pin.AM_BSP_GPIO_LED1
                am_hal_gpio_write_type_e.AM_HAL_GPIO_OUTPUT_TOGGLE ]
          else []) := by
      by_cases hl : led_status = led_status_e.LED_STATUS_IDLE <;>
        simp [application_task_loop, xQueueReceive, hq, process_downlink_packet, AppState.call,
          downlink_report_queue, hl]
    rw [hc, downlink_report_eq s hinv]
    simp only [List.append_assoc, List.singleton_append, List.cons_append, List.nil_append]
  · subst hm
    by_cases hl : led_status = led_status_e.LED_STATUS_IDLE <;>
      simp [application_task_loop, xQueueReceive, hq, process_button_press, AppState.call,
        APP_MSG_RX, APP_MSG_BUTTON_PRESSED, LORAMAC_HANDLER_UNCONFIRMED_MSG, hl]
  · by_cases hl : led_status = led_status_e.LED_STATUS_IDLE <;>
      simp [application_task_loop, xQueueReceive, hq, AppState.call, h1, h2, hl]

/-- C9 at a button press and at a downlink on port 5 with payload `01 02`, with
the LED sequencer busy: the button press gives the one transmit; the downlink
gives the heading, the seven fields, the two payload bytes and the pulse. -/
theorem application_task_loop_dispatch_witness :
    (application_task_loop (on_button_pressed (AppState.init 7)) (led_status_e.other 1)).calls =
      [ Call.lorawan_transmit 1 0 1 [66] ] ∧
    (application_task_loop
        (on_lorawan_receive (AppState.init 7)
          (some { Port := 5, BufferSize := 2, Buffer := string_mem [1, 2] })
          { DownlinkCounter := 3, RxSlot := 0, Datarate := 1, Rssi := -40, Snr := 9 })
        (led_status_e.other 1)).calls =
      [ Call.am_util_stdio_printf "\n\rReceived Data\n\r" [],
        Call.am_util_stdio_printf "  COUNTER   : %-4d\n\r" [3],
        Call.am_util_stdio_printf "  PORT      : %-4d\n\r" [5],
        Call.am_util_stdio_printf "  SLOT      : %-4d\n\r" [0],
        Call.am_util_stdio_printf "  DATA RATE : %-4d\n\r" [1],
        Call.am_util_stdio_printf "  RSSI      : %-4d\n\r" [-40],
        Call.am_util_stdio_printf "  SNR       : %-4d\n\r" [9],
        Call.am_util_stdio_printf "  SIZE      : %-4d\n\r" [2],
        Call.am_util_stdio_printf "  PAYLOAD   :" [],
        Call.am_util_stdio_printf "\n\r    " [],
        Call.am_util_stdio_printf "%02x " [1],
        Call.am_util_stdio_printf "%02x " [2],
        Call.am_util_stdio_printf "\n\r" [],
        Call.led_send
          { ui32Handle := 7, ui32Id := led_effect_e.LED_EFFECT_PULSE2, ui32Repeat := 1 } ] :=
  ⟨(application_task_loop_dispatch (on_button_pressed (AppState.init 7))
      APP_MSG_BUTTON_PRESSED [] (led_status_e.other 1) rfl).2.1 rfl,
   (application_task_loop_dispatch
      (on_lorawan_receive (AppState.init 7)
        (some { Port := 5, BufferSize := 2, Buffer := string_mem [1, 2] })
        { DownlinkCounter := 3, RxSlot := 0, Datarate := 1, Rssi := -40, Snr := 9 })
      APP_MSG_RX [] (led_status_e.other 1) rfl).1 rfl (Or.inl rfl)⟩

/-- The calls of one iteration: those of handling the message, if any, none
of which writes LED1, followed by the heartbeat when the LED status is
idle. -/
theorem application_task_loop_calls (s : AppState) (led_status : led_status_e) :
    ∃ handled : List Call,
      (∀ c, c ∈ handled → c ≠ led1_toggle) ∧
      (application_task_loop s led_status).calls =
        s.calls ++ (handled ++
          (if led_status = led_status_e.LED_STATUS_IDLE then [led1_toggle] else [])) := by
  cases hq : s.application_queue with
  | nil =>
    refine ⟨[], fun c hc => absurd hc (List.not_mem_nil _), ?_⟩
    by_cases hl : led_status = led_status_e.LED_STATUS_IDLE <;>
      simp [application_task_loop, xQueueReceive, hq, AppState.call, led1_toggle, hl]
  | cons msg rest =>
    by_cases h1 : msg = APP_MSG_RX
    · refine ⟨downlink_report s ++
        [ Call.led_send
            { ui32Handle := s.application_led_handle
              ui32Id := led_effect_e.LED_EFFECT_PULSE2
              ui32Repeat := 1 } ], ?_, ?_⟩
      · intro c hc
        rcases List.mem_append.mp hc with hc | hc
        · obtain ⟨fmt, args, rfl⟩ := downlink_report_prints s c hc
          simp [led1_toggle]
        · rw [List.mem_singleton] at hc
          subst hc
          simp [led1_toggle]
      · subst h1
        by_cases hl : led_status = led_status_e.LED_STATUS_IDLE <;>
          simp [application_task_loop, xQueueReceive, hq, process_downlink_packet, AppState.call,
            downlink_report_queue, led1_toggle, hl]
    · by_cases h2 : msg = APP_MSG_BUTTON_PRESSED
      · refine ⟨[Call.lorawan_transmit 1 0 1 [66]], ?_, ?_⟩
        · intro c hc
          rw [List.mem_singleton] at hc
          subst hc
          simp [led1_toggle]
        · subst h2
          by_cases hl : led_status = led_status_e.LED_STATUS_IDLE <;>
            simp [application_task_loop, xQueueReceive, hq, process_button_press, AppState.call,
              APP_MSG_RX, APP_MSG_BUTTON_PRESSED, led1_toggle, hl]
      · refine ⟨[], fun c hc => absurd hc (List.not_mem_nil _), ?_⟩
        by_cases hl : led_status = led_status_e.LED_STATUS_IDLE <;>
          simp [application_task_loop, xQueueReceive, hq, AppState.call, h1, h2, led1_toggle, hl]

/-- C10 (as amended): in every iteration of the loop, whether the queue
receive timed out or delivered a message, LED1 is toggled if and only if the
LED status polled at the end of the iteration is idle, and then once; the
iteration only adds to the call log. -/
theorem heartbeat_iff_idle (s : AppState) (led_status : led_status_e) :
    (application_task_loop s led_status).calls = s.calls ++ iteration_calls s led_status ∧
    (led1_toggle ∈ iteration_calls s led_status ↔ led_status = led_status_e.LED_STATUS_IDLE) ∧
    (iteration_calls s led_status).count led1_toggle ≤ 1 := by
  obtain ⟨handled, hh, he⟩ := application_task_loop_calls s led_status
  have hi : iteration_calls s led_status =
      handled ++ (if led_status = led_status_e.LED_STATUS_IDLE then [led1_toggle] else []) := by
    unfold iteration_calls
    rw [he, List.drop_left]
  have hc : handled.count led1_toggle = 0 :=
    List.count_eq_zero.mpr (fun hm => hh _ hm rfl)
  refine ⟨by rw [hi, he], ?_, ?_⟩
  · rw [hi, List.mem_append]
    by_cases hl : led_status = led_status_e.LED_STATUS_IDLE
    · simp [hl]
    · simp only [hl, if_false, List.not_mem_nil, or_false, iff_false]
      exact fun hm => hh _ hm rfl
  · rw [hi, List.count_append, hc]
    by_cases hl : led_status = led_status_e.LED_STATUS_IDLE <;> simp [hl]

/-- C10 (as amended) at a time-out with the LED status idle, and at one with
the sequencer busy. -/
theorem heartbeat_iff_idle_witness :
    led1_toggle ∈ iteration_calls (AppState.init 7) led_status_e.LED_STATUS_IDLE ∧
    led1_toggle ∉ iteration_calls (AppState.init 7) (led_status_e.other 1) :=
  ⟨(heartbeat_iff_idle (AppState.init 7) led_status_e.LED_STATUS_IDLE).2.1.mpr rfl,
   fun hm => absurd ((heartbeat_iff_idle (AppState.init 7) (led_status_e.other 1)).2.1.mp hm)
     (by decide)⟩

/-- C10 as stated fails: an iteration that receives a button-press message
while the LED status is idle makes the transmit and then toggles LED1. -/
theorem heartbeat_after_message :
    (xQueueReceive (on_button_pressed (AppState.init 7)).application_queue).1 =
      some APP_MSG_BUTTON_PRESSED ∧
    (application_task_loop (on_button_pressed (AppState.init 7))
        led_status_e.LED_STATUS_IDLE).calls =
      [ Call.lorawan_transmit 1 0 1 [66],
        Call.am_hal_gpio_state_write gpio_pin.AM_BSP_GPIO_LED1
          am_hal_gpio_write_type_e.AM_HAL_GPIO_OUTPUT_TOGGLE ] := by
  constructor <;> rfl

/-! ## Start-up: proofs -/

/-- C13: `setup_lorawan` makes its stack calls in this order: tracing on,
network configuration (region, data rate, two flags), activation
configuration, the three keys, the five callback registrations (MLME request,
join request, receive, sleep, wake), stack state `LORAWAN_STACK_STARTED`;
`lorawan_class_set` with the default class follows if and only if the
persisted join state is true, and the joining flag is left 0. -/
theorem setup_lorawan_sequence (s : AppState) (join_state : Bool) :
    (setup_lorawan s join_state).calls =
      s.calls ++
        [ Call.lorawan_tracing_set 1,
          Call.lorawan_network_config lorawan_region_e.LORAWAN_REGION_US915
            lorawan_datarate_e.LORAWAN_DATARATE_0 true true,
          Call.lorawan_activation_config lorawan_activation_e.LORAWAN_ACTIVATION_OTAA none,
          Call.lorawan_key_set_by_str lorawan_key_e.LORAWAN_KEY_JOIN_EUI "b4c231a359bc2e3d",
          Call.lorawan_key_set_by_str lorawan_key_e.LORAWAN_KEY_APP
            "01c3f004a2d6efffe32c4eda14bcd2b4",
          Call.lorawan_key_set_by_str lorawan_key_e.LORAWAN_KEY_NWK
            "3f4ca100e2fc675ea123f4eb12c4a012",
          Call.lorawan_event_callback_register lorawan_event_e.LORAWAN_EVENT_MAC_MLME_REQUEST
            app_callback.on_lorawan_mlme_request,
          Call.lorawan_event_callback_register lorawan_event_e.LORAWAN_EVENT_JOIN_REQUEST
            app_callback.on_lorawan_join_request,
          Call.lorawan_event_callback_register lorawan_event_e.LORAWAN_EVENT_RX_DATA
            app_callback.on_lorawan_receive,
          Call.lorawan_event_callback_register lorawan_event_e.LORAWAN_EVENT_SLEEP
            app_callback.on_lorawan_sleep,
          Call.lorawan_event_callback_register lorawan_event_e.LORAWAN_EVENT_WAKE
            app_callback.on_lorawan_wake,
          Call.lorawan_stack_state_set lorawan_stack_state_e.LORAWAN_STACK_STARTED ] ++
        (if join_state then [Call.lorawan_class_set lorawan_class_e.LORAWAN_CLASS_A] else []) ∧
    (Call.lorawan_class_set lorawan_class_e.LORAWAN_CLASS_A ∈
        (setup_lorawan s join_state).calls.drop s.calls.length ↔ join_state = true) ∧
    (setup_lorawan s join_state).lorawan_joining = 0 := by
  cases join_state <;>
    simp [setup_lorawan, AppState.call, LORAWAN_PM_ENABLE, APPLICATION_DEFAULT_LORAWAN_CLASS]

/-! ## The hex-escape decoder on every input: proofs -/

theorem argv_read_of_lt (argv : List (List Nat)) (i : Nat) (h : i < argv.length) :
    argv_read argv i = Except.ok (argv.get ⟨i, h⟩) := by
  simp [argv_read, List.getElem?_eq_getElem h]

theorem argv_read_of_le (argv : List (List Nat)) (i : Nat) (h : argv.length ≤ i) :
    argv_read argv i = Except.error (Fault.absent_argument i) := by
  simp [argv_read, List.getElem?_eq_none h]

theorem except_ok_bind {α β : Type} (a : α) (f : α → Except Fault β) :
    (Except.ok a >>= f) = f a := rfl

theorem except_pure {α : Type} (a : α) : (pure a : Except Fault α) = Except.ok a := rfl

theorem except_error_bind {α β : Type} (e : Fault) (f : α → Except Fault β) :
    ((Except.error e : Except Fault α) >>= f) = Except.error e := rfl

theorem lorawan_task_cli_class_ok (env : CliEnv) (s : CliState) (argv : List (List Nat)) :
    ∃ s1, lorawan_task_cli_class env s argv = Except.ok s1 := by
  unfold lorawan_task_cli_class
  by_cases h3 : argv.length = 3
  · rw [if_pos h3, argv_read_of_lt argv 2 (by omega), except_ok_bind]
    split_ifs <;> exact ⟨_, rfl⟩
  · by_cases h4 : argv.length = 4
    · rw [if_neg h3, if_pos h4, argv_read_of_lt argv 2 (by omega), except_ok_bind]
      split_ifs
      · rw [argv_read_of_lt argv 3 (by omega), except_ok_bind]
        dsimp only
        split_ifs <;> exact ⟨_, rfl⟩
      · exact ⟨_, rfl⟩
    · rw [if_neg h3, if_neg h4]
      exact ⟨_, rfl⟩

theorem lorawan_task_cli_datetime_ok (env : CliEnv) (s : CliState) (argv : List (List Nat)) :
    ∃ s1, lorawan_task_cli_datetime env s argv = Except.ok s1 := by
  unfold lorawan_task_cli_datetime
  by_cases h2 : argv.length = 2
  · simp only [h2, if_true]
    exact ⟨_, rfl⟩
  · by_cases h3 : 3 ≤ argv.length
    · simp only [h2, h3, if_true, if_false]
      rw [argv_read_of_lt argv 2 (by omega), except_ok_bind]
      split_ifs <;> exact ⟨_, rfl⟩
    · simp only [h2, h3, if_false]
      exact ⟨_, rfl⟩

theorem lorawan_task_cli_port_ok (s : CliState) (argv : List (List Nat)) :
    ∃ s1, lorawan_task_cli_port s argv = Except.ok s1 := by
  unfold lorawan_task_cli_port
  by_cases h3 : argv.length < 3
  · simp only [h3, if_true]
    exact ⟨_, rfl⟩
  · simp only [h3, if_false]
    rw [argv_read_of_lt argv 2 (by omega), except_ok_bind]
    split_ifs <;> exact ⟨_, rfl⟩

theorem lorawan_task_cli_trace_ok (s : CliState) (argv : List (List Nat)) :
    ∃ s1, lorawan_task_cli_trace s argv = Except.ok s1 := by
  unfold lorawan_task_cli_trace
  by_cases h3 : argv.length < 3
  · simp only [h3, if_true]
    exact ⟨_, rfl⟩
  · simp only [h3, if_false]
    rw [argv_read_of_lt argv 2 (by omega), except_ok_bind]
    split_ifs <;> exact ⟨_, rfl⟩

theorem lorawan_task_cli_periodic_ok (env : CliEnv) (s : CliState) (argv : List (List Nat)) :
    ∃ s1, lorawan_task_cli_periodic env s argv = Except.ok s1 := by
  unfold lorawan_task_cli_periodic
  by_cases h3 : argv.length < 3
  · simp only [h3, if_true]
    exact ⟨_, rfl⟩
  · simp only [h3, if_false]
    rw [argv_read_of_lt argv 2 (by omega), except_ok_bind]
    split_ifs <;>
      first
      | exact ⟨_, rfl⟩
      | (cases s.periodic_transmit_timer <;> exact ⟨_, rfl⟩)
      | (rw [argv_read_of_lt argv 3 (by omega)]
         cases s.periodic_transmit_timer <;> exact ⟨_, rfl⟩)

/-- The index `argv[argc - 1]` of the `send` handler is below `argc` when there
is an argument at all. -/
theorem send_index_lt (argc : Nat) (h : 0 < argc) : (argc + 2 ^ 32 - 1) % 2 ^ 32 < argc := by
  have h1 : argc + 2 ^ 32 - 1 = (argc - 1) + 2 ^ 32 := by omega
  rw [h1, Nat.add_mod_right]
  have := Nat.mod_le (argc - 1) (2 ^ 32)
  omega

/-- The `send` handler on a line with at least one argument: it decodes one of
the arguments into the transmit buffer, terminates the result, and returns. -/
theorem lorawan_task_cli_send_buffer (s : CliState) (argv : List (List Nat)) (hne : argv ≠ []) :
    ∃ last, last ∈ argv ∧ ∃ s1, lorawan_task_cli_send s argv = Except.ok s1 ∧
      s1.lorawan_cli_transmit_buffer =
        store (convert_hex_string (string_mem last) last.length s.lorawan_cli_transmit_buffer).1
          (convert_hex_string (string_mem last) last.length s.lorawan_cli_transmit_buffer).2 0 := by
  have hpos : 0 < argv.length := List.length_pos.mpr hne
  have hidx := send_index_lt argv.length hpos
  refine ⟨argv.get ⟨_, hidx⟩, List.get_mem _ _ _, ?_⟩
  unfold lorawan_task_cli_send
  dsimp only
  rw [argv_read_of_lt argv _ hidx, except_ok_bind]
  by_cases h5 : argv.length = 5
  · simp only [h5, if_true]
    rw [argv_read_of_lt argv 2 (by omega), except_ok_bind,
      argv_read_of_lt argv 3 (by omega), except_ok_bind]
    exact ⟨_, rfl, rfl⟩
  · by_cases h4 : argv.length = 4
    · simp only [h4, if_true]
      rw [argv_read_of_lt argv 2 (by omega), except_ok_bind]
      exact ⟨_, rfl, rfl⟩
    · simp only [h5, h4, if_false]
      exact ⟨_, rfl, rfl⟩

theorem lorawan_task_cli_send_ok (s : CliState) (argv : List (List Nat)) (hne : argv ≠ []) :
    ∃ s1, lorawan_task_cli_send s argv = Except.ok s1 := by
  obtain ⟨_, _, s1, h, _⟩ := lorawan_task_cli_send_buffer s argv hne
  exact ⟨s1, h⟩

/-- C14 on the code: the entry reads `argv[1]` before it looks at `argc`, so a
line with fewer than two arguments (the bare verb) makes it read the absent
`argv[1]`; on every line with at least two arguments the entry and its
handlers read only arguments that are there, and return. -/
theorem lorawan_task_cli_entry_argv (env : CliEnv) (s : CliState) (argv : List (List Nat)) :
    (argv.length < 2 →
      lorawan_task_cli_entry env s argv = Except.error (Fault.absent_argument 1)) ∧
    (2 ≤ argv.length → ∃ s1, lorawan_task_cli_entry env s argv = Except.ok s1) := by
  refine ⟨fun h => ?_, fun h => ?_⟩
  · unfold lorawan_task_cli_entry
    rw [argv_read_of_le argv 1 (by omega), except_error_bind]
  · have hne : argv ≠ [] := by
      intro h0
      rw [h0] at h
      simp at h
    unfold lorawan_task_cli_entry
    rw [argv_read_of_lt argv 1 (by omega), except_ok_bind]
    generalize argv.get ⟨1, by omega⟩ = a1
    by_cases h0 : a1 = lit "help"
    · rw [if_pos h0]
      exact ⟨_, rfl⟩
    rw [if_neg h0]
    by_cases h1 : a1 = lit "start"
    · rw [if_pos h1]
      exact ⟨_, rfl⟩
    rw [if_neg h1]
    by_cases h2 : a1 = lit "stop"
    · rw [if_pos h2]
      exact ⟨_, rfl⟩
    rw [if_neg h2]
    by_cases h3 : a1 = lit "class"
    · rw [if_pos h3]
      exact lorawan_task_cli_class_ok env s argv
    rw [if_neg h3]
    by_cases h4 : a1 = lit "clear"
    · rw [if_pos h4]
      exact ⟨_, rfl⟩
    rw [if_neg h4]
    by_cases h5 : a1 = lit "datetime"
    · rw [if_pos h5]
      exact lorawan_task_cli_datetime_ok env s argv
    rw [if_neg h5]
    by_cases h6 : a1 = lit "join"
    · rw [if_pos h6]
      exact ⟨_, rfl⟩
    rw [if_neg h6]
    by_cases h7 : a1 = lit "keys"
    · rw [if_pos h7]
      exact ⟨_, rfl⟩
    rw [if_neg h7]
    by_cases h8 : a1 = lit "periodic"
    · rw [if_pos h8]
      exact lorawan_task_cli_periodic_ok env s argv
    rw [if_neg h8]
    by_cases h9 : a1 = lit "send"
    · rw [if_pos h9]
      exact lorawan_task_cli_send_ok s argv hne
    rw [if_neg h9]
    by_cases h10 : a1 = lit "port"
    · rw [if_pos h10]
      exact lorawan_task_cli_port_ok s argv
    rw [if_neg h10]
    by_cases h11 : a1 = lit "trace"
    · rw [if_pos h11]
      exact lorawan_task_cli_trace_ok s argv
    rw [if_neg h11]
    by_cases h12 : a1 = lit "status"
    · rw [if_pos h12]
      exact ⟨_, rfl⟩
    rw [if_neg h12]
    exact ⟨_, rfl⟩

/-- C14 at the bare verb `lorawan` (`argc = 1`): the entry reads the absent
`argv[1]`.  At `lorawan class set` it returns without a call; at `lorawan send`
it returns after transmitting the word `send` as the payload. -/
theorem lorawan_task_cli_entry_argv_witness :
    lorawan_task_cli_entry (CliEnv.nominal 1000) CliState.init [lit "lorawan"] =
      Except.error (Fault.absent_argument 1) ∧
    (∃ s1, lorawan_task_cli_entry (CliEnv.nominal 1000) CliState.init
      [lit "lorawan", lit "class", lit "set"] = Except.ok s1) ∧
    (∃ s1, lorawan_task_cli_entry (CliEnv.nominal 1000) CliState.init
      [lit "lorawan", lit "send"] = Except.ok s1 ∧
      s1.calls = [Call.lorawan_transmit 1 0 4 [115, 101, 110, 100]]) :=
  ⟨(lorawan_task_cli_entry_argv (CliEnv.nominal 1000) CliState.init [lit "lorawan"]).1
      (by decide),
   (lorawan_task_cli_entry_argv (CliEnv.nominal 1000) CliState.init
      [lit "lorawan", lit "class", lit "set"]).2 (by decide),
   ⟨_, rfl, rfl⟩⟩

/-! ## The periodic-transmit timer: proofs -/

theorem lit_stop : lit "stop" = [115, 116, 111, 112] := by decide

theorem lit_start : lit "start" = [115, 116, 97, 114, 116] := by decide

theorem update_timer_single (t : Timer) (f : Timer → Timer) :
    update_timer [t] t.handle f = [f t] := by
  simp [update_timer]

/-- The `periodic stop` command without a timer: nothing happens. -/
theorem periodic_stop_none (env : CliEnv) (s : CliState)
    (hs : s.periodic_transmit_timer = none) :
    lorawan_task_cli_periodic env s PeriodicCommand.stop.argv = Except.ok s := by
  simp [lorawan_task_cli_periodic, PeriodicCommand.argv, argv_read, except_ok_bind, except_pure, hs]

/-- The `periodic stop` command with a timer: stop, delete, null the handle. -/
theorem periodic_stop_some (env : CliEnv) (s : CliState) (h : Nat)
    (hs : s.periodic_transmit_timer = some h) :
    lorawan_task_cli_periodic env s PeriodicCommand.stop.argv =
      Except.ok { xTimerDelete (xTimerStop s h) h with periodic_transmit_timer := none } := by
  simp [lorawan_task_cli_periodic, PeriodicCommand.argv, argv_read, except_ok_bind, except_pure, hs]

/-- The `periodic start` command without a timer: create, start, first
transmit. -/
theorem periodic_start_none (env : CliEnv) (s : CliState) (p : Option (List Nat))
    (hs : s.periodic_transmit_timer = none) :
    lorawan_task_cli_periodic env s (PeriodicCommand.start p).argv =
      Except.ok (periodic_transmit_callback
        (xTimerStart
          { (xTimerCreate s "lorawan periodic"
              (pdMS_TO_TICKS env.configTICK_RATE_HZ (u32 (start_period p * 1000))) true 0).1 with
            periodic_transmit_timer := some s.next_timer }
          s.next_timer)
        s.next_timer) := by
  cases p <;>
    simp [lorawan_task_cli_periodic, PeriodicCommand.argv, argv_read, except_ok_bind, except_pure, hs,
      lit_stop, lit_start, start_period, xTimerCreate]

/-- The `periodic start` command with a timer: change its period, transmit. -/
theorem periodic_start_some (env : CliEnv) (s : CliState) (p : Option (List Nat)) (h : Nat)
    (hs : s.periodic_transmit_timer = some h) :
    lorawan_task_cli_periodic env s (PeriodicCommand.start p).argv =
      Except.ok (periodic_transmit_callback
        (xTimerChangePeriod s h (pdMS_TO_TICKS env.configTICK_RATE_HZ (start_period p))) h) := by
  cases p <;>
    simp [lorawan_task_cli_periodic, PeriodicCommand.argv, argv_read, except_ok_bind, except_pure, hs,
      lit_stop, lit_start, start_period]

/-- The callback adds one call to the log: the transmit on the default port,
unconfirmed. -/
theorem periodic_transmit_callback_calls (s : CliState) (h : Nat) :
    ∃ length payload,
      (periodic_transmit_callback s h).calls =
        s.calls ++
          [ Call.lorawan_transmit s.lorawan_default_port LORAMAC_HANDLER_UNCONFIRMED_MSG
              length payload ] :=
  ⟨_, _, rfl⟩

/-- One `periodic` command returns and keeps the handle and the timer service
in agreement. -/
theorem periodic_step_inv (env : CliEnv) (s : CliState) (c : PeriodicCommand)
    (hinv : timer_inv s) :
    ∃ s1, lorawan_task_cli_periodic env s c.argv = Except.ok s1 ∧ timer_inv s1 := by
  cases hp : s.periodic_transmit_timer with
  | none =>
    have ht : s.timers = [] := by simpa [timer_inv, hp] using hinv
    cases c with
    | stop => exact ⟨s, periodic_stop_none env s hp, hinv⟩
    | start p =>
      refine ⟨_, periodic_start_none env s p hp, ?_⟩
      simp [timer_inv, periodic_transmit_callback, vTimerSetTimerID, xTimerStart, xTimerCreate,
        update_timer, CliState.call, ht]
  | some h =>
    obtain ⟨t, ht, hh⟩ : ∃ t, s.timers = [t] ∧ t.handle = h := by
      simpa [timer_inv, hp] using hinv
    cases c with
    | stop =>
      refine ⟨_, periodic_stop_some env s h hp, ?_⟩
      simp [timer_inv, xTimerDelete, xTimerStop, update_timer, ht, hh]
    | start p =>
      refine ⟨_, periodic_start_some env s p h hp, ?_⟩
      simp [timer_inv, periodic_transmit_callback, vTimerSetTimerID, xTimerChangePeriod,
        update_timer, CliState.call, ht, hh, hp]

/-- Every sequence of `periodic` commands returns and keeps the handle and the
timer service in agreement. -/
theorem run_periodic_inv (env : CliEnv) (cmds : List PeriodicCommand) :
    ∀ s, timer_inv s → ∃ s1, run_periodic env s cmds = Except.ok s1 ∧ timer_inv s1 := by
  induction cmds with
  | nil => intro s h; exact ⟨s, rfl, h⟩
  | cons c cs ih =>
    intro s h
    obtain ⟨s1, h1, hi1⟩ := periodic_step_inv env s c h
    obtain ⟨s2, h2, hi2⟩ := ih s1 hi1
    exact ⟨s2, by simp only [run_periodic, h1, h2], hi2⟩

theorem timer_inv_facts (s : CliState) (h : timer_inv s) :
    s.timers.length ≤ 1 ∧ (s.periodic_transmit_timer.isSome = true ↔ s.timers.length = 1) := by
  cases hp : s.periodic_transmit_timer with
  | none =>
    have ht : s.timers = [] := by simpa [timer_inv, hp] using h
    simp [ht]
  | some k =>
    obtain ⟨t, ht, _⟩ : ∃ t, s.timers = [t] ∧ t.handle = k := by simpa [timer_inv, hp] using h
    simp [ht]

/-- C12: from a state in which the handle and the timer service agree (as at
start-up), every sequence of `periodic start` / `periodic stop` commands
returns with at most one periodic-transmit timer in existence and with the
handle non-null exactly when that timer exists.  Command by command: `stop`
without a timer changes nothing; `stop` with a timer stops it, deletes it and
nulls the handle; `start` without a timer creates one, makes it the handle and
starts it; `start` with a timer changes the period of that timer and creates
none. -/
theorem periodic_timer_single (env : CliEnv) (s : CliState) (hinv : timer_inv s) :
    (∀ cmds, ∃ s1, run_periodic env s cmds = Except.ok s1 ∧ timer_inv s1 ∧
      s1.timers.length ≤ 1 ∧
      (s1.periodic_transmit_timer.isSome = true ↔ s1.timers.length = 1)) ∧
    (s.periodic_transmit_timer = none →
      lorawan_task_cli_periodic env s PeriodicCommand.stop.argv = Except.ok s) ∧
    (∀ h, s.periodic_transmit_timer = some h →
      ∃ s1, lorawan_task_cli_periodic env s PeriodicCommand.stop.argv = Except.ok s1 ∧
        s1.periodic_transmit_timer = none ∧ s1.timers = [] ∧
        s1.calls = s.calls ++ [Call.xTimerStop h, Call.xTimerDelete h]) ∧
    (∀ p, s.periodic_transmit_timer = none →
      ∃ s1 length payload,
        lorawan_task_cli_periodic env s (PeriodicCommand.start p).argv = Except.ok s1 ∧
        s1.periodic_transmit_timer = some s.next_timer ∧
        s1.calls = s.calls ++
          [ Call.xTimerCreate "lorawan periodic"
              (pdMS_TO_TICKS env.configTICK_RATE_HZ (u32 (start_period p * 1000))) true 0,
            Call.xTimerStart s.next_timer,
            Call.lorawan_transmit s.lorawan_default_port LORAMAC_HANDLER_UNCONFIRMED_MSG
              length payload ]) ∧
    (∀ p h, s.periodic_transmit_timer = some h →
      ∃ s1 length payload,
        lorawan_task_cli_periodic env s (PeriodicCommand.start p).argv = Except.ok s1 ∧
        s1.periodic_transmit_timer = some h ∧
        s1.calls = s.calls ++
          [ Call.xTimerChangePeriod h (pdMS_TO_TICKS env.configTICK_RATE_HZ (start_period p)),
            Call.lorawan_transmit s.lorawan_default_port LORAMAC_HANDLER_UNCONFIRMED_MSG
              length payload ]) := by
  refine ⟨fun cmds => ?_, periodic_stop_none env s, fun h hp => ?_, fun p hp => ?_,
    fun p h hp => ?_⟩
  · obtain ⟨s1, h1, hi1⟩ := run_periodic_inv env cmds s hinv
    exact ⟨s1, h1, hi1, timer_inv_facts s1 hi1⟩
  · obtain ⟨t, ht, hh⟩ : ∃ t, s.timers = [t] ∧ t.handle = h := by
      simpa [timer_inv, hp] using hinv
    refine ⟨_, periodic_stop_some env s h hp, rfl, ?_, ?_⟩
    · simp [xTimerDelete, xTimerStop, update_timer, ht, hh]
    · simp [xTimerDelete, xTimerStop]
  · obtain ⟨len, pl, hc⟩ := periodic_transmit_callback_calls
      (xTimerStart
        { (xTimerCreate s "lorawan periodic"
            (pdMS_TO_TICKS env.configTICK_RATE_HZ (u32 (start_period p * 1000))) true 0).1 with
          periodic_transmit_timer := some s.next_timer }
        s.next_timer)
      s.next_timer
    refine ⟨_, len, pl, periodic_start_none env s p hp, ?_, ?_⟩
    · simp [periodic_transmit_callback, vTimerSetTimerID, xTimerStart, CliState.call]
    · rw [hc]
      simp [xTimerStart, xTimerCreate]
  · obtain ⟨len, pl, hc⟩ := periodic_transmit_callback_calls
      (xTimerChangePeriod s h (pdMS_TO_TICKS env.configTICK_RATE_HZ (start_period p))) h
    refine ⟨_, len, pl, periodic_start_some env s p h hp, ?_, ?_⟩
    · simp [periodic_transmit_callback, vTimerSetTimerID, xTimerChangePeriod, CliState.call, hp]
    · rw [hc]
      simp [xTimerChangePeriod]

/-- C12 from start-up over `start`, `start 60`, `stop`, `stop`, `start 5`: the
commands return, at most one timer exists, and the handle is non-null exactly
when it exists. -/
theorem periodic_timer_single_witness :
    ∃ s1, run_periodic (CliEnv.nominal 1000) CliState.init
        [ PeriodicCommand.start none, PeriodicCommand.start (some (lit "60")),
          PeriodicCommand.stop, PeriodicCommand.stop,
          PeriodicCommand.start (some (lit "5")) ] = Except.ok s1 ∧
      s1.timers.length ≤ 1 ∧
      (s1.periodic_transmit_timer.isSome = true ↔ s1.timers.length = 1) :=
  have h := (periodic_timer_single (CliEnv.nominal 1000) CliState.init
    (show CliState.init.timers = [] from rfl)).1
    [ PeriodicCommand.start none, PeriodicCommand.start (some (lit "60")),
      PeriodicCommand.stop, PeriodicCommand.stop, PeriodicCommand.start (some (lit "5")) ]
  h.elim fun s1 hs => ⟨s1, hs.1, hs.2.2.1, hs.2.2.2⟩

/-- C11 on the code, at `periodic start` followed by `periodic start 60` with
a tick rate of 1000 Hz: the first command creates the timer with a period of
300000 ticks, 300 seconds; the second calls `xTimerChangePeriod` with 60
ticks, 60 milliseconds, where 60 seconds are 60000 ticks. -/
theorem periodic_start_rearm_milliseconds :
    ∃ s1 s2,
      lorawan_task_cli_entry (CliEnv.nominal 1000) CliState.init
        [lit "lorawan", lit "periodic", lit "start"] = Except.ok s1 ∧
      lorawan_task_cli_entry (CliEnv.nominal 1000) s1
        [lit "lorawan", lit "periodic", lit "start", lit "60"] = Except.ok s2 ∧
      s1.timers.map Timer.period = [300000] ∧
      s2.timers.map Timer.period = [60] ∧
      s2.calls =
        [ Call.xTimerCreate "lorawan periodic" 300000 true 0,
          Call.xTimerStart 1,
          Call.lorawan_transmit 1 0 1 [49],
          Call.xTimerChangePeriod 1 60,
          Call.lorawan_transmit 1 0 1 [50] ] ∧
      pdMS_TO_TICKS 1000 60 = 60 ∧
      pdMS_TO_TICKS 1000 (60 * 1000) = 60000 :=
  ⟨_, _, rfl, rfl, rfl, rfl, rfl, rfl, rfl⟩

end Lorawan
